import Mathlib

/-!
Verification development for the easy-enclave control plane and SDK.

The definitions below are shallow embeddings of the Python sources:
  * `src/control_plane/registry.py`  (AppRecord, Registry)
  * `src/control_plane/ledger.py`    (LedgerStore)
  * `src/control_plane/server.py`    (WebSocket handlers, disconnect path)
  * `src/control_plane/allowlist.py` (AllowlistCache, fetch_allowlist)
  * `src/sdk/easyenclave/verify.py`  (parse_quote, verify_quote)
  * `src/sdk/easyenclave/ratls.py`   (build_ratls_cert, verify_ratls_cert)

Modelling conventions:
  * `datetime` values are integers (any fixed unit); `datetime.now()` becomes
    an explicit `now` parameter.
  * SQLite tables become lists of rows; `WHERE key = ?` on a primary key is
    modelled by first-match association-list lookup and first-match update.
  * Python exceptions become `Except`; a `with self._db` transaction that
    rolls back on an exception is modelled by the caller keeping the old
    state when the operation returns `.error`.
  * freshly generated uuids are passed in as explicit arguments, since only
    their role as row identifiers matters to the claims.
  * cryptographic primitives that the code calls out to (SHA-256, DER
    encodings, X.509 parsing, ECDSA, the PCCS HTTP client) are abstracted as
    function parameters ("oracles"); all control flow around them is taken
    from the source.
-/

/-! ## Generic helpers -/

/-- First-match association-list lookup, mirroring Python dict access and
`SELECT ... WHERE key = ?` on a primary key. -/
def lookupStr {α : Type} : List (String × α) → String → Option α
  | [], _ => none
  | (k, v) :: rest, key => if k == key then some v else lookupStr rest key

/-- First-match association-list update (the key is a primary key in the
source's tables, so at most one row matches). -/
def setStr {α : Type} : List (String × α) → String → α → List (String × α)
  | [], _, _ => []
  | (k, v) :: rest, key, nv => if k == key then (key, nv) :: rest else (k, v) :: setStr rest key nv

/-- Python slice `b[i:j]` on a byte string. -/
def pySlice (b : List Nat) (i j : Nat) : List Nat :=
  (b.drop i).take (j - i)

/-- `struct.unpack('<H', data[off:off+2])[0]` — little-endian 16-bit read. -/
def readLE16 (b : List Nat) (off : Nat) : Nat :=
  b.getD off 0 + 256 * b.getD (off + 1) 0

/-- `struct.unpack('<I', data[off:off+4])[0]` — little-endian 32-bit read. -/
def readLE32 (b : List Nat) (off : Nat) : Nat :=
  b.getD off 0 + 256 * b.getD (off + 1) 0 + 65536 * b.getD (off + 2) 0
    + 16777216 * b.getD (off + 3) 0

/-- One hex digit, lower case, as produced by Python `bytes.hex()`. -/
def hexDigit (n : Nat) : Char :=
  "0123456789abcdef".toList.getD n 'x'

/-- One byte as two lower-case hex digits. -/
def hexByte (n : Nat) : String :=
  String.mk [hexDigit (n % 256 / 16), hexDigit (n % 16)]

/-- Python `bytes.hex()`. -/
def hexOfBytes (b : List Nat) : String :=
  String.join (b.map hexByte)

/-! ## Registry (`src/control_plane/registry.py`) -/

/-- `AppRecord` dataclass (registry.py lines 8-23), with `datetime` as `Int`. -/
structure AppRecord where
  app_name : String
  repo : String
  release_tag : String
  network : String
  agent_id : String
  registered_at : Int
  registration_expires_at : Int
  last_attested_at : Option Int := none
  last_health_at : Option Int := none
  sealed : Bool := false
  attestation_status : String := "unknown"
  health_status : String := "unknown"
  ws_connected : Bool := false
  tunnel_id : Option String := none
deriving Repr, DecidableEq

/-- `AppRecord.ttl_warning_at` (registry.py line 25). -/
def AppRecord.ttl_warning_at (r : AppRecord) (warn_days : Int) : Int :=
  r.registration_expires_at - warn_days

/-- `AppRecord.registration_state` (registry.py lines 28-34); `now` is passed
explicitly in place of `datetime.now(timezone.utc)`. -/
def AppRecord.registration_state (r : AppRecord) (warn_days now : Int) : String :=
  if r.registration_expires_at ≤ now then "expired"
  else if r.ttl_warning_at warn_days ≤ now then "warning"
  else "active"

/-- `RegistryConfig` dataclass (registry.py lines 37-40). -/
structure RegistryConfig where
  ttl_days : Int
  warn_days : Int
deriving Repr, DecidableEq

/-- The Registry's `_apps` dict. -/
abbrev RegistryMap := List (String × AppRecord)

/-- `Registry.get` (registry.py line 48). -/
def Registry.get (apps : RegistryMap) (app_name : String) : Option AppRecord :=
  lookupStr apps app_name

/-- `Registry.register` (registry.py lines 54-85).  Raising `ValueError`
becomes `.error`; the raise happens before any mutation in the source, so an
error leaves the map unchanged. -/
def Registry.register (cfg : RegistryConfig) (apps : RegistryMap)
    (app_name repo release_tag network agent_id : String) (now : Int) :
    Except String (RegistryMap × AppRecord) :=
  match lookupStr apps app_name with
  | some record =>
      if record.repo ≠ repo then
        .error "app_name already bound to a different repo"
      else
        let record' := { record with
          release_tag := release_tag
          network := network
          agent_id := agent_id
          registered_at := now
          registration_expires_at := now + cfg.ttl_days }
        .ok (setStr apps app_name record', record')
  | none =>
      let record' : AppRecord := {
        app_name := app_name
        repo := repo
        release_tag := release_tag
        network := network
        agent_id := agent_id
        registered_at := now
        registration_expires_at := now + cfg.ttl_days }
      .ok (apps ++ [(app_name, record')], record')

/-- `Registry.mark_attested` (registry.py lines 87-91).  The bare dict access
`self._apps[app_name]` raises `KeyError` when absent; that becomes
`.error "KeyError"`, and no record is created. -/
def Registry.mark_attested (apps : RegistryMap) (app_name : String)
    (sealedFlag : Bool) (status : String) (now : Int) :
    Except String RegistryMap :=
  match lookupStr apps app_name with
  | none => .error "KeyError"
  | some record =>
      .ok (setStr apps app_name { record with
        last_attested_at := some now
        sealed := sealedFlag
        attestation_status := status })

/-- `Registry.mark_health` (registry.py lines 93-96). -/
def Registry.mark_health (apps : RegistryMap) (app_name status : String)
    (now : Int) : Except String RegistryMap :=
  match lookupStr apps app_name with
  | none => .error "KeyError"
  | some record =>
      .ok (setStr apps app_name { record with
        last_health_at := some now
        health_status := status })

/-- `Registry.mark_connection` (registry.py lines 98-101). -/
def Registry.mark_connection (apps : RegistryMap) (app_name : String)
    (connected : Bool) (tunnel_id : Option String) :
    Except String RegistryMap :=
  match lookupStr apps app_name with
  | none => .error "KeyError"
  | some record =>
      .ok (setStr apps app_name { record with
        ws_connected := connected
        tunnel_id := tunnel_id })

/-- The `allowed` flag computed by `Registry.status_payload`
(registry.py lines 103-114), as a function of the record and the current
time. -/
def Registry.status_allowed (warn_days : Int) (r : AppRecord) (now : Int) : Bool :=
  let state := r.registration_state warn_days now
  let allowed := state == "active" && r.attestation_status == "valid"
      && r.health_status == "pass" && r.ws_connected
  let allowed := if r.network == "prod" && !r.sealed then false else allowed
  let allowed := if state == "expired" then false else allowed
  allowed

/-! ## Ledger store (`src/control_plane/ledger.py`)

Timestamp columns that no code path reads back (`created_at`, `updated_at`,
`last_attested_at`, `last_health_at`, `reported_at`, `authorized_at`) are
omitted from the row models; `occurred_at` on node events and the period
columns are kept because settlement eligibility reads them.  Fresh
`uuid4().hex` identifiers are passed in as explicit arguments. -/

/-- `LedgerError` (ledger.py lines 14-17). -/
structure LedgerError where
  reason : String
deriving Repr, DecidableEq

/-- A `nodes` table row (ledger.py lines 79-92). -/
structure NodeRow where
  node_id : String
  status : String
  price_cents_per_vcpu_hour : Option Int
  stake_tier : Option String
  stake_amount_cents : Option Int
  attestation_status : String
  health_status : String
  node_token_hash : Option String := none
deriving Repr, DecidableEq

/-- A `ledger` table row (ledger.py lines 107-115); `entry_id` is a fresh
uuid in the source and is omitted since nothing reads it. -/
structure LedgerEntryRow where
  account_id : String
  delta_cents : Int
  reason : String
  ref_type : Option String
  ref_id : Option String
deriving Repr, DecidableEq

/-- A `credit_locks` table row (ledger.py lines 120-129). -/
structure CreditLockRow where
  lock_id : String
  account_id : String
  usage_id : String
  amount_cents : Int
  period_start : String
  period_end : String
  status : String
deriving Repr, DecidableEq

/-- A `usage` table row (ledger.py lines 134-146). -/
structure UsageRow where
  usage_id : String
  node_id : String
  account_id : String
  vcpu_hours : ℚ
  price_cents_per_vcpu_hour : Int
  amount_cents : Int
  period_start : String
  period_end : String
  status : String
  lock_id : String
deriving Repr, DecidableEq

/-- An `abuse_reports` table row (ledger.py lines 151-163). -/
structure AbuseReportRow where
  report_id : String
  node_id : String
  period_start : Option String
  period_end : Option String
  status : String
  reported_by : Option String
  authorized_by : Option String := none
  reason : Option String := none
deriving Repr, DecidableEq

/-- A `node_events` table row (ledger.py lines 167-174); `event_id` is a
fresh uuid and is omitted. -/
structure NodeEventRow where
  node_id : String
  event_type : String
  occurred_at : String
  detail : Option String
deriving Repr, DecidableEq

/-- The SQLite database of `LedgerStore`, one list per table. -/
structure Store where
  nodes : List NodeRow
  accounts : List (String × Int)
  ledger : List LedgerEntryRow
  locks : List CreditLockRow
  usage : List UsageRow
  events : List NodeEventRow
  abuse : List AbuseReportRow
deriving Repr, DecidableEq

/-- A freshly created database. -/
def Store.empty : Store := ⟨[], [], [], [], [], [], []⟩

/-- `SELECT * FROM nodes WHERE node_id = ?` (primary key). -/
def Store.findNode (s : Store) (node_id : String) : Option NodeRow :=
  s.nodes.find? (fun r => r.node_id == node_id)

/-- `UPDATE nodes ... WHERE node_id = ?` (primary key, first match). -/
def updateNodeRow : List NodeRow → String → (NodeRow → NodeRow) → List NodeRow
  | [], _, _ => []
  | r :: rest, nid, f =>
      if r.node_id == nid then f r :: rest else r :: updateNodeRow rest nid f

/-- `UPDATE usage SET status = ? WHERE usage_id = ?` (ledger.py lines
525/529). -/
def setUsageStatus (rows : List UsageRow) (uid st : String) : List UsageRow :=
  rows.map (fun u => if u.usage_id == uid then { u with status := st } else u)

/-- `UPDATE credit_locks SET status = ? WHERE lock_id = ?` (ledger.py lines
411-414 / 419-422). -/
def setLockStatus (rows : List CreditLockRow) (lid st : String) : List CreditLockRow :=
  rows.map (fun l => if l.lock_id == lid then { l with status := st } else l)

/-- `LedgerStore._ensure_account` (ledger.py lines 183-191). -/
def Store.ensure_account (s : Store) (account_id : String) : Store :=
  match lookupStr s.accounts account_id with
  | some _ => s
  | none => { s with accounts := s.accounts ++ [(account_id, 0)] }

/-- `LedgerStore._apply_balance_delta` (ledger.py lines 193-206). -/
def Store.apply_balance_delta (s : Store) (account_id : String) (delta_cents : Int) :
    Except LedgerError Store :=
  let s := s.ensure_account account_id
  let current := (lookupStr s.accounts account_id).getD 0
  let updated := current + delta_cents
  if updated < 0 then .error ⟨"insufficient_funds"⟩
  else .ok { s with accounts := setStr s.accounts account_id updated }

/-- `LedgerStore._insert_ledger_entry` (ledger.py lines 208-224). -/
def Store.insert_ledger_entry (s : Store) (account_id : String) (delta_cents : Int)
    (reason : String) (ref_type ref_id : Option String) : Store :=
  { s with ledger := s.ledger ++ [⟨account_id, delta_cents, reason, ref_type, ref_id⟩] }

/-- `LedgerStore.ensure_node` (ledger.py lines 226-241). -/
def Store.ensure_node (s : Store) (node_id : String) : Store :=
  match s.findNode node_id with
  | some _ => s
  | none =>
      let row : NodeRow := ⟨node_id, "active", none, none, none, "unknown", "unknown", none⟩
      let s := { s with nodes := s.nodes ++ [row] }
      s.ensure_account node_id

/-- `LedgerStore.register_node` (ledger.py lines 243-301); `freshTokenHash`
stands for `hash_token(uuid4().hex)`. -/
def Store.register_node (s : Store) (node_id : String) (price : Option Int)
    (stake_tier : Option String) (stake_amount_cents : Option Int)
    (allow_update rotate_token : Bool) (freshTokenHash : String) :
    Except LedgerError Store :=
  match s.findNode node_id with
  | some row =>
      if !allow_update then .error ⟨"node_exists"⟩
      else
        let token_hash :=
          if rotate_token || row.node_token_hash.getD "" == "" then some freshTokenHash
          else row.node_token_hash
        .ok { s with nodes := updateNodeRow s.nodes node_id (fun r =>
          { r with
            price_cents_per_vcpu_hour := price
            stake_tier := stake_tier
            stake_amount_cents := stake_amount_cents
            node_token_hash := token_hash }) }
  | none =>
      let row : NodeRow := ⟨node_id, "active", price, stake_tier, stake_amount_cents,
        "unknown", "unknown", some freshTokenHash⟩
      let s := { s with nodes := s.nodes ++ [row] }
      .ok (s.ensure_account node_id)

/-- `LedgerStore.update_node_pricing` (ledger.py lines 321-328). -/
def Store.update_node_pricing (s : Store) (node_id : String) (price : Int) : Store :=
  let s := s.ensure_node node_id
  { s with nodes := updateNodeRow s.nodes node_id (fun r =>
      { r with price_cents_per_vcpu_hour := some price }) }

/-- `LedgerStore.update_node_stake` (ledger.py lines 330-337). -/
def Store.update_node_stake (s : Store) (node_id : String)
    (stake_tier : Option String) (stake_amount_cents : Option Int) : Store :=
  let s := s.ensure_node node_id
  { s with nodes := updateNodeRow s.nodes node_id (fun r =>
      { r with stake_tier := stake_tier, stake_amount_cents := stake_amount_cents }) }

/-- `LedgerStore.mark_attestation` (ledger.py lines 339-346). -/
def Store.mark_attestation (s : Store) (node_id status : String) : Store :=
  let s := s.ensure_node node_id
  { s with nodes := updateNodeRow s.nodes node_id (fun r =>
      { r with attestation_status := status }) }

/-- `LedgerStore.mark_health` (ledger.py lines 348-355). -/
def Store.mark_health (s : Store) (node_id status : String) : Store :=
  let s := s.ensure_node node_id
  { s with nodes := updateNodeRow s.nodes node_id (fun r =>
      { r with health_status := status }) }

/-- `LedgerStore.record_node_event` (ledger.py lines 357-366); `occurred_at`
stands for `_utcnow()`. -/
def Store.record_node_event (s : Store) (node_id event_type occurred_at : String)
    (detail : Option String) : Store :=
  let s := s.ensure_node node_id
  { s with events := s.events ++ [⟨node_id, event_type, occurred_at, detail⟩] }

/-- `LedgerStore.purchase_credits` (ledger.py lines 368-375). -/
def Store.purchase_credits (s : Store) (account_id : String) (amount_cents : Int) :
    Except LedgerError Store :=
  if amount_cents ≤ 0 then .error ⟨"invalid_amount"⟩
  else do
    let s := s.ensure_account account_id
    let s ← s.apply_balance_delta account_id amount_cents
    .ok (s.insert_ledger_entry account_id amount_cents "purchase" (some "purchase") none)

/-- `LedgerStore.transfer_credits` (ledger.py lines 377-386); `transfer_id`
stands for the fresh uuid. -/
def Store.transfer_credits (s : Store) (from_account to_account : String)
    (amount_cents : Int) (transfer_id : String) : Except LedgerError Store :=
  if amount_cents ≤ 0 then .error ⟨"invalid_amount"⟩
  else do
    let s ← s.apply_balance_delta from_account (-amount_cents)
    let s := s.insert_ledger_entry from_account (-amount_cents) "transfer_out"
      (some "transfer") (some transfer_id)
    let s ← s.apply_balance_delta to_account amount_cents
    .ok (s.insert_ledger_entry to_account amount_cents "transfer_in"
      (some "transfer") (some transfer_id))

/-- `LedgerStore.lock_credits` (ledger.py lines 388-406); `lock_id` stands
for the fresh uuid. -/
def Store.lock_credits (s : Store) (account_id usage_id : String)
    (amount_cents : Int) (period_start period_end lock_id : String) :
    Except LedgerError Store := do
  let s ← s.apply_balance_delta account_id (-amount_cents)
  let s := s.insert_ledger_entry account_id (-amount_cents) "lock" (some "usage") (some usage_id)
  .ok { s with locks := s.locks ++
    [⟨lock_id, account_id, usage_id, amount_cents, period_start, period_end, "locked"⟩] }

/-- `LedgerStore._release_lock` (ledger.py lines 408-414). -/
def Store.release_lock (s : Store) (lock_id account_id : String)
    (amount_cents : Int) (usage_id : String) : Except LedgerError Store := do
  let s ← s.apply_balance_delta account_id amount_cents
  let s := s.insert_ledger_entry account_id amount_cents "unlock" (some "usage") (some usage_id)
  .ok { s with locks := setLockStatus s.locks lock_id "released" }

/-- `LedgerStore._settle_lock` (ledger.py lines 416-422). -/
def Store.settle_lock (s : Store) (lock_id provider_id : String)
    (amount_cents : Int) (usage_id : String) : Except LedgerError Store := do
  let s ← s.apply_balance_delta provider_id amount_cents
  let s := s.insert_ledger_entry provider_id amount_cents "settlement" (some "usage") (some usage_id)
  .ok { s with locks := setLockStatus s.locks lock_id "settled" }

/-- `Decimal.quantize(Decimal("1"), rounding=ROUND_HALF_UP)` — round half
away from zero to an integer. -/
def roundHalfUp (q : ℚ) : Int :=
  if 0 ≤ q then ⌊q + 1/2⌋ else -⌊-q + 1/2⌋

/-- `LedgerStore.report_usage` (ledger.py lines 424-463); `usage_id` and
`lock_id` stand for the fresh uuids. -/
def Store.report_usage (s : Store) (account_id node_id : String) (vcpu_hours : ℚ)
    (period_start period_end usage_id lock_id : String) :
    Except LedgerError Store :=
  match s.findNode node_id with
  | none => .error ⟨"node_price_missing"⟩
  | some node =>
      match node.price_cents_per_vcpu_hour with
      | none => .error ⟨"node_price_missing"⟩
      | some price_cents =>
          let amount_cents := roundHalfUp (vcpu_hours * (price_cents : ℚ))
          if amount_cents ≤ 0 then .error ⟨"invalid_amount"⟩
          else do
            let s := s.ensure_account account_id
            let s ← s.lock_credits account_id usage_id amount_cents period_start period_end lock_id
            .ok { s with usage := s.usage ++
              [⟨usage_id, node_id, account_id, vcpu_hours, price_cents, amount_cents,
                period_start, period_end, "locked", lock_id⟩] }

/-- `NodeEligibility` dataclass (ledger.py lines 59-62). -/
structure NodeEligibility where
  eligible : Bool
  reasons : List String
deriving Repr, DecidableEq

/-- `LedgerStore._eligible_for_settlement` (ledger.py lines 465-504).
SQLite compares the TEXT timestamp columns lexicographically, which is
`String` order here. -/
def Store.eligible_for_settlement (s : Store) (node_id period_start period_end : String) :
    NodeEligibility :=
  match s.findNode node_id with
  | none => ⟨false, ["node_not_found"]⟩
  | some node =>
      let reasons : List String :=
        (if node.status ≠ "active" then ["node_inactive"] else [])
        ++ (if node.attestation_status ≠ "valid" then ["attestation_invalid"] else [])
        ++ (if node.health_status ≠ "pass" then ["health_fail"] else [])
        ++ (if node.stake_amount_cents.getD 0 ≤ 0 then ["stake_missing"] else [])
      let windowEvents := s.events.filter (fun e =>
        e.node_id == node_id
          && decide (period_start ≤ e.occurred_at)
          && decide (e.occurred_at ≤ period_end))
      let reasons := windowEvents.foldl (fun acc e =>
        acc ++ (if e.event_type == "health_miss" then ["health_miss"] else [])
            ++ (if e.event_type == "attest_miss" then ["attest_miss"] else [])) reasons
      let abuse := s.abuse.find? (fun r =>
        r.node_id == node_id && r.status == "authorized"
          && (match r.period_start with
              | none => true
              | some x => decide (x ≤ period_end))
          && (match r.period_end with
              | none => true
              | some y => decide (period_start ≤ y)))
      let reasons := reasons ++ (if abuse.isSome then ["abuse_authorized"] else [])
      ⟨reasons.isEmpty, reasons⟩

/-- The snapshot `SELECT ... FROM usage WHERE node_id = ? AND period_start
= ? AND period_end = ? AND status = 'locked'` (ledger.py lines 509-515). -/
def settleMatches (s : Store) (node_id period_start period_end : String) : List UsageRow :=
  s.usage.filter (fun u =>
    u.node_id == node_id && u.period_start == period_start
      && u.period_end == period_end && u.status == "locked")

/-- One iteration of the `settle_period` loop (ledger.py lines 518-530). -/
def Store.settle_step (elig : Bool) (node_id : String) (s : Store) (u : UsageRow) :
    Except LedgerError Store :=
  if elig then do
    let s ← s.settle_lock u.lock_id node_id u.amount_cents u.usage_id
    .ok { s with usage := setUsageStatus s.usage u.usage_id "settled" }
  else do
    let s ← s.release_lock u.lock_id u.account_id u.amount_cents u.usage_id
    .ok { s with usage := setUsageStatus s.usage u.usage_id "failed" }

/-- `LedgerStore.settle_period` (ledger.py lines 506-539).  Returns the
final store, the eligibility verdict, and the settled/failed counters. -/
def Store.settle_period (s : Store) (node_id period_start period_end : String) :
    Except LedgerError (Store × NodeEligibility × Nat × Nat) := do
  let elig := s.eligible_for_settlement node_id period_start period_end
  let ms := settleMatches s node_id period_start period_end
  let s' ← ms.foldlM (Store.settle_step elig.eligible node_id) s
  .ok (s', elig, if elig.eligible then ms.length else 0,
       if elig.eligible then 0 else ms.length)

/-- `LedgerStore.file_abuse_report` (ledger.py lines 541-560); `report_id`
stands for the fresh uuid. -/
def Store.file_abuse_report (s : Store) (node_id : String)
    (period_start period_end reported_by reason : Option String)
    (report_id : String) : Store :=
  let s := s.ensure_node node_id
  { s with abuse := s.abuse ++
    [⟨report_id, node_id, period_start, period_end, "pending", reported_by, none, reason⟩] }

/-- `LedgerStore.authorize_abuse_report` (ledger.py lines 562-578). -/
def Store.authorize_abuse_report (s : Store) (report_id authorized_by action : String) :
    Except LedgerError Store :=
  if action ≠ "authorize" && action ≠ "deny" then .error ⟨"invalid_action"⟩
  else
    let status := if action == "authorize" then "authorized" else "denied"
    match s.abuse.find? (fun r => r.report_id == report_id) with
    | none => .error ⟨"report_not_found"⟩
    | some _ => .ok { s with abuse := s.abuse.map (fun r =>
        if r.report_id == report_id then
          { r with status := status, authorized_by := some authorized_by }
        else r) }

/-- `LedgerStore.get_balance` (ledger.py lines 580-584). -/
def Store.get_balance (s : Store) (account_id : String) : Int :=
  (lookupStr s.accounts account_id).getD 0

/-- One ledger API call, with all fresh uuids and timestamps as explicit
payload, used to quantify over arbitrary operation sequences. -/
inductive LOp where
  | ensureNode (node_id : String)
  | registerNode (node_id : String) (price : Option Int) (stake_tier : Option String)
      (stake_amount_cents : Option Int) (allow_update rotate_token : Bool)
      (freshTokenHash : String)
  | updatePricing (node_id : String) (price : Int)
  | updateStake (node_id : String) (stake_tier : Option String) (stake : Option Int)
  | markAttestation (node_id status : String)
  | markHealth (node_id status : String)
  | recordEvent (node_id event_type occurred_at : String) (detail : Option String)
  | purchase (account_id : String) (amount_cents : Int)
  | transfer (from_account to_account : String) (amount_cents : Int) (transfer_id : String)
  | lock (account_id usage_id : String) (amount_cents : Int)
      (period_start period_end lock_id : String)
  | reportUsage (account_id node_id : String) (vcpu_hours : ℚ)
      (period_start period_end usage_id lock_id : String)
  | settle (node_id period_start period_end : String)
  | fileAbuse (node_id : String) (period_start period_end reported_by reason : Option String)
      (report_id : String)
  | authorizeAbuse (report_id authorized_by action : String)
deriving Repr

/-- Run one API call.  Mutating calls run inside `with self._lock, self._db`
in the source, so an exception rolls the transaction back; this is the
`.error` branch keeping the previous store. -/
def Store.applyOp (s : Store) : LOp → Store
  | .ensureNode n => s.ensure_node n
  | .registerNode n p t st au rt h =>
      match s.register_node n p t st au rt h with
      | .ok s' => s'
      | .error _ => s
  | .updatePricing n p => s.update_node_pricing n p
  | .updateStake n t st => s.update_node_stake n t st
  | .markAttestation n st => s.mark_attestation n st
  | .markHealth n st => s.mark_health n st
  | .recordEvent n e at_ d => s.record_node_event n e at_ d
  | .purchase a c =>
      match s.purchase_credits a c with
      | .ok s' => s'
      | .error _ => s
  | .transfer f t c tid =>
      match s.transfer_credits f t c tid with
      | .ok s' => s'
      | .error _ => s
  | .lock a u c ps pe lid =>
      match s.lock_credits a u c ps pe lid with
      | .ok s' => s'
      | .error _ => s
  | .reportUsage a n h ps pe uid lid =>
      match s.report_usage a n h ps pe uid lid with
      | .ok s' => s'
      | .error _ => s
  | .settle n ps pe =>
      match s.settle_period n ps pe with
      | .ok (s', _) => s'
      | .error _ => s
  | .fileAbuse n ps pe rb r rid => s.file_abuse_report n ps pe rb r rid
  | .authorizeAbuse rid by_ act =>
      match s.authorize_abuse_report rid by_ act with
      | .ok s' => s'
      | .error _ => s

/-- Run a sequence of API calls from a given store. -/
def Store.runOps (s : Store) (ops : List LOp) : Store :=
  ops.foldl Store.applyOp s

/-- Sum of `balance_cents` over the `accounts` table. -/
def Store.sumBalances (s : Store) : Int :=
  (s.accounts.map Prod.snd).sum

/-- Sum of `delta_cents` over the `ledger` table. -/
def Store.sumDeltas (s : Store) : Int :=
  (s.ledger.map LedgerEntryRow.delta_cents).sum

/-- The double-entry invariant of the claim. -/
def Store.balanced (s : Store) : Prop :=
  s.sumBalances = s.sumDeltas

/-! ## Control-plane WebSocket handlers (`src/control_plane/server.py`)

The handlers are modelled as pure state transitions.  Frames sent on the
socket are accumulated in `sent`; `closed` records `ws.close()`.  The
outcome of `verify_attestation` (policy.py) and of the allowlist fetch are
passed in as arguments, since they wrap network and cryptography; all
control flow around them follows the source.  An uncaught Python exception
(such as the `KeyError` from `Registry` lookups) is the `.error` result.
The `_sessions_by_app` bookkeeping map is not modelled; no claim reads it. -/

/-- `AttestationResult` dataclass (policy.py lines 9-14). -/
structure AttestationResult where
  verified : Bool
  reason : String
  sealed : Bool
  report_data : Option String := none
deriving Repr, DecidableEq

/-- `Session` dataclass (server.py lines 64-78), WebSocket and futures
omitted. -/
structure ServerSession where
  app_name : Option String := none
  repo : Option String := none
  release_tag : Option String := none
  network : String := "prod"
  agent_id : Option String := none
  tunnel_id : Option String := none
  pending_nonce : Option String := none
  registered : Bool := false
  attesting : Bool := false
deriving Repr, DecidableEq

/-- The parts of `ControlPlane` state one socket's handlers touch, plus the
frames sent on that socket. -/
structure ServerState where
  cfg : RegistryConfig
  registry : RegistryMap
  store : Store
  sent : List (String × String) := []
  sentAttestNonces : List String := []
  closed : Bool := false
deriving Repr, DecidableEq

/-- Append one `status{state, reason}` frame. -/
def ServerState.send (st : ServerState) (state reason : String) : ServerState :=
  { st with sent := st.sent ++ [(state, reason)] }

/-- `ControlPlane._handle_register` (server.py lines 155-201) followed by
`_send_attest_request` (lines 271-281).  `ratlsGate = some reason` stands
for the RA-TLS/allowlist admission block rejecting with that reason;
`none` means the block passes or `RATLS_REQUIRE_CLIENT_CERT` is off.
`nonce` stands for the fresh `secrets.token_hex(16)` and `tunnelSuffix`
for `secrets.token_hex(8)`. -/
def handleRegister (st : ServerState) (s : ServerSession)
    (repo release_tag app_name agent_id network : Option String)
    (ratlsGate : Option String) (nonce tunnelSuffix : String) :
    ServerState × ServerSession :=
  let network' := match network with
    | none => "forge-1"
    | some n => if n == "" then "forge-1" else n
  if network' ≠ "forge-1" then
    (st.send "invalid" "invalid_network", s)
  else if repo.getD "" == "" || release_tag.getD "" == "" || app_name.getD "" == ""
      || agent_id.getD "" == "" then
    (st.send "invalid" "missing_fields", s)
  else
    let s := { s with
      repo := repo
      release_tag := release_tag
      app_name := app_name
      agent_id := agent_id
      network := network'
      tunnel_id := some (app_name.getD "" ++ ":" ++ tunnelSuffix) }
    let st := { st with store := st.store.ensure_node (agent_id.getD "") }
    match ratlsGate with
    | some reason => ({ (st.send "invalid" reason) with closed := true }, s)
    | none =>
        if s.attesting then (st, s)
        else ({ st with sentAttestNonces := st.sentAttestNonces ++ [nonce] },
              { s with attesting := true, pending_nonce := some nonce })

/-- `ControlPlane._verify_session_attestation` (server.py lines 316-341).
`fetchFail = some msg` stands for `fetch_allowlist` raising; `result` is
the outcome of `verify_attestation` (policy.py) on the session's frames.
Note that on a verification failure this registers the app and records an
`attest_miss` node event before returning. -/
def verifySessionAttestation (st : ServerState) (s : ServerSession)
    (fetchFail : Option String) (result : AttestationResult)
    (now : Int) (nowStr : String) :
    Except String (ServerState × AttestationResult) :=
  match fetchFail with
  | some msg => .ok (st, ⟨false, "allowlist_fetch_failed:" ++ msg, false, none⟩)
  | none =>
      if result.verified then .ok (st, result)
      else do
        let (reg1, _) ← Registry.register st.cfg st.registry (s.app_name.getD "")
          (s.repo.getD "") (s.release_tag.getD "") s.network (s.agent_id.getD "") now
        let reg2 ← Registry.mark_attested reg1 (s.app_name.getD "") result.sealed "invalid" now
        let store := match s.agent_id with
          | some g => (st.store.mark_attestation g "invalid").record_node_event g
              "attest_miss" nowStr (some result.reason)
          | none => st.store
        .ok ({ st with registry := reg2, store := store }, result)

/-- `ControlPlane._handle_attest_response` (server.py lines 203-250).
`payloadNonce` is `payload.get("nonce")`; `deadlineExceeded` is the
`time.monotonic() - pending_sent_at > ATTEST_DEADLINE_SEC` test. -/
def handleAttestResponse (st : ServerState) (s : ServerSession)
    (payloadNonce : Option String) (deadlineExceeded : Bool)
    (fetchFail : Option String) (result : AttestationResult)
    (now : Int) (nowStr : String) :
    Except String (ServerState × ServerSession) :=
  match s.pending_nonce with
  | none => .ok (st.send "invalid" "unexpected_attestation", s)
  | some n =>
      if payloadNonce ≠ some n then
        .ok ({ (st.send "invalid" "nonce_mismatch") with closed := true }, s)
      else if deadlineExceeded then
        .ok ({ (st.send "invalid" "attestation_timeout") with closed := true }, s)
      else do
        let (st, result) ← verifySessionAttestation st s fetchFail result now nowStr
        if !result.verified then
          let store := match s.agent_id with
            | some g => (st.store.mark_attestation g "invalid").record_node_event g
                "attest_miss" nowStr (some result.reason)
            | none => st.store
          .ok ({ ({ st with store := store }.send "invalid" result.reason) with
                 closed := true }, s)
        else do
          let (reg1, _) ← Registry.register st.cfg st.registry (s.app_name.getD "")
            (s.repo.getD "") (s.release_tag.getD "") s.network (s.agent_id.getD "") now
          let reg2 ← Registry.mark_attested reg1 (s.app_name.getD "") result.sealed "valid" now
          let reg3 ← Registry.mark_connection reg2 (s.app_name.getD "") true s.tunnel_id
          let s' := { s with pending_nonce := none, attesting := false, registered := true }
          let store := match s.agent_id with
            | some g => (st.store.mark_attestation g "valid").mark_health g "pass"
            | none => st.store
          .ok (({ st with registry := reg3, store := store }.send "ok" "attested"), s')

/-- `ControlPlane._handle_disconnect` (server.py lines 343-352). -/
def handleDisconnect (st : ServerState) (s : ServerSession)
    (now : Int) (nowStr : String) : Except String ServerState :=
  match s.app_name with
  | none => .ok st
  | some a => do
      let reg1 ← Registry.mark_connection st.registry a false s.tunnel_id
      let reg2 ← Registry.mark_health reg1 a "fail" now
      let store := match s.agent_id with
        | some g => (st.store.record_node_event g "health_miss" nowStr
            (some "disconnect")).mark_health g "fail"
        | none => st.store
      .ok { st with registry := reg2, store := store }

/-! ## Quote verification (`src/sdk/easyenclave/verify.py`)

Byte strings are `List Nat`.  X.509 parsing, chain verification, ECDSA and
the PCCS HTTP client are oracles in `VerifyOracle`; certificates extracted
from the quote are opaque handles (`Nat`).  The base64 transport encoding
of `verify_quote`'s argument is omitted: the model takes the decoded
bytes. -/

/-- `DCAPError` (sdk exceptions). -/
structure DCAPError where
  msg : String
deriving Repr, DecidableEq

/-- `TDXQuoteHeader` dataclass (verify.py lines 47-56). -/
structure TDXQuoteHeader where
  version : Nat
  att_key_type : Nat
  tee_type : Nat
  reserved1 : List Nat
  reserved2 : List Nat
  qe_vendor_id : List Nat
  user_data : List Nat
deriving Repr, DecidableEq

/-- `TDReport` dataclass (verify.py lines 59-76). -/
structure TDReport where
  tee_tcb_svn : List Nat
  mr_seam : List Nat
  mr_signer_seam : List Nat
  seam_attributes : List Nat
  td_attributes : List Nat
  xfam : List Nat
  mr_td : List Nat
  mr_config_id : List Nat
  mr_owner : List Nat
  mr_owner_config : List Nat
  rtmr0 : List Nat
  rtmr1 : List Nat
  rtmr2 : List Nat
  rtmr3 : List Nat
  report_data : List Nat
deriving Repr, DecidableEq

/-- `TDXQuote` dataclass (verify.py lines 79-90). -/
structure TDXQuote where
  header : TDXQuoteHeader
  td_report : TDReport
  signature_len : Nat
  ecdsa_signature : List Nat
  ecdsa_public_key : List Nat
  qe_report : List Nat
  qe_signature : List Nat
  cert_data_type : Nat
  cert_data : List Nat
deriving Repr, DecidableEq

/-- `parse_quote_header` (verify.py lines 93-106). -/
def parse_quote_header (data : List Nat) : Except DCAPError TDXQuoteHeader :=
  if data.length < 48 then .error ⟨"Quote header too short"⟩
  else .ok ⟨readLE16 data 0, readLE16 data 2, readLE32 data 4,
    pySlice data 8 10, pySlice data 10 12, pySlice data 12 28, pySlice data 28 48⟩

/-- `parse_td_report` (verify.py lines 109-138). -/
def parse_td_report (data : List Nat) : Except DCAPError TDReport :=
  if data.length < 584 then .error ⟨"TD Report too short"⟩
  else .ok ⟨pySlice data 0 16, pySlice data 16 64, pySlice data 64 112,
    pySlice data 112 120, pySlice data 120 128, pySlice data 128 136,
    pySlice data 136 184, pySlice data 184 232, pySlice data 232 280,
    pySlice data 280 328, pySlice data 328 376, pySlice data 376 424,
    pySlice data 424 472, pySlice data 472 520, pySlice data 520 584⟩

/-- Auxiliary for `bytes.find`: first index at which `pat` occurs. -/
def findSubAux (pat : List Nat) : List Nat → Nat → Option Nat
  | [], i => if pat.isEmpty then some i else none
  | h :: t, i => if pat.isPrefixOf (h :: t) then some i else findSubAux pat t (i + 1)

/-- `haystack.find(pattern)` on byte strings (`none` for Python's `-1`). -/
def findSub (hay pat : List Nat) : Option Nat :=
  findSubAux pat hay 0

/-- The byte string `b"-----BEGIN CERTIFICATE-----"`. -/
def pemMarker : List Nat :=
  "-----BEGIN CERTIFICATE-----".toList.map Char.toNat

/-- `parse_quote` (verify.py lines 141-201). -/
def parse_quote (quote_bytes : List Nat) : Except DCAPError TDXQuote :=
  if quote_bytes.length < 48 + 584 + 4 then .error ⟨"Quote too short"⟩
  else
    match parse_quote_header (pySlice quote_bytes 0 48) with
    | .error e => .error e
    | .ok header =>
        if header.tee_type ≠ 0x81 then .error ⟨"Not a TDX quote"⟩
        else
          match parse_td_report (pySlice quote_bytes 48 632) with
          | .error e => .error e
          | .ok td_report =>
              let sig_len := readLE32 quote_bytes 632
              if quote_bytes.length < 636 + sig_len then
                .error ⟨"Quote truncated: missing signature data"⟩
              else
                let sig_data := pySlice quote_bytes 636 (636 + sig_len)
                if sig_data.length < 128 then .error ⟨"Signature data too short"⟩
                else
                  let ecdsa_sig := pySlice sig_data 0 64
                  let ecdsa_pubkey := pySlice sig_data 64 128
                  let qe_report :=
                    if 512 ≤ sig_data.length then pySlice sig_data 128 512 else []
                  let qe_sig :=
                    if 576 ≤ sig_data.length then pySlice sig_data 512 576 else []
                  let (cert_data_type, cert_data) :=
                    match findSub sig_data pemMarker with
                    | some pem_start =>
                        (if 6 ≤ pem_start then readLE16 sig_data (pem_start - 6) else 0,
                         sig_data.drop pem_start)
                    | none => (0, [])
                  .ok ⟨header, td_report, sig_len, ecdsa_sig, ecdsa_pubkey,
                    qe_report, qe_sig, cert_data_type, cert_data⟩

/-- `extract_measurements` (verify.py lines 425-464); `rtmr_base = 376`. -/
def extract_measurements (quote_bytes : List Nat) : List (String × String) :=
  if quote_bytes.length < 632 then
    [("rtmr0", "error"), ("rtmr1", "error"), ("rtmr2", "error"), ("rtmr3", "error")]
  else
    [("rtmr0", hexOfBytes (pySlice quote_bytes 376 424)),
     ("rtmr1", hexOfBytes (pySlice quote_bytes 424 472)),
     ("rtmr2", hexOfBytes (pySlice quote_bytes 472 520)),
     ("rtmr3", hexOfBytes (pySlice quote_bytes 520 568)),
     ("report_data", hexOfBytes (pySlice quote_bytes 568 632))]

/-- The fields of `verify_with_pccs`'s result that `verify_quote` reads:
`pccs_result.get("status")` and `pccs_result.get("tcb_status", …)`. -/
structure PccsOutcome where
  status : String
  tcb_status : Option String := none
deriving Repr, DecidableEq

/-- Oracles for the cryptographic and network calls of `verify_quote`:
`extract_certificates` (certificates as opaque handles),
`verify_certificate_chain`, `verify_quote_signature`, `verify_with_pccs`. -/
structure VerifyOracle where
  extractCerts : List Nat → List Nat
  verifyChain : List Nat → Bool × String
  verifySig : TDXQuote → List Nat → Bool × String
  pccs : List Nat → PccsOutcome

/-- The result dict of `verify_quote` (verify.py lines 344-351 and the
fields added later); `verification_steps` is omitted.  There is no
`reason` key: `verify_quote` reports failures via `verified`/`tcb_status`
or by raising `DCAPError`. -/
structure VQResult where
  verified : Bool
  quote_size : Nat
  measurements : List (String × String)
  tcb_status : String
  version : Nat
  att_key_type : Nat
  cert_count : Nat
  chain_verified : Bool
  signature_verified : Bool
deriving Repr, DecidableEq

/-- The expected-measurements loop of `verify_quote` (verify.py lines
382-389): a mismatch exists when some expected key is present in the
extracted measurements with a different value. -/
def measurementMismatch (expected meas : List (String × String)) : Bool :=
  expected.any (fun kv =>
    match lookupStr meas kv.fst with
    | some w => w ≠ kv.snd
    | none => false)

/-- `verify_quote` (verify.py lines 315-422), on decoded quote bytes. -/
def verify_quote (o : VerifyOracle) (quote_bytes : List Nat)
    (expected_measurements : Option (List (String × String)))
    (skip_pccs : Bool) : Except DCAPError VQResult :=
  if quote_bytes.length < 636 then .error ⟨"Quote too short"⟩
  else
    match parse_quote quote_bytes with
    | .error e => .error e
    | .ok quote =>
        let certs := o.extractCerts quote.cert_data
        let chain_valid := (o.verifyChain certs).fst
        let sig_valid := (o.verifySig quote quote_bytes).fst
        let measurements := extract_measurements quote_bytes
        let base : VQResult := {
          verified := false
          quote_size := quote_bytes.length
          measurements := measurements
          tcb_status := "unknown"
          version := quote.header.version
          att_key_type := quote.header.att_key_type
          cert_count := certs.length
          chain_verified := chain_valid
          signature_verified := sig_valid }
        if (match expected_measurements with
            | some expected => measurementMismatch expected measurements
            | none => false) then
          .ok { base with verified := false, tcb_status := "measurement_mismatch" }
        else if !skip_pccs && chain_valid && sig_valid then
          let p := o.pccs quote_bytes
          if p.status == "verified" then
            .ok { base with verified := true, tcb_status := p.tcb_status.getD "Unknown" }
          else if p.status == "verified_with_warnings" then
            .ok { base with verified := true, tcb_status := p.tcb_status.getD "Unknown" }
          else if p.status == "partial" || p.status == "error" then
            .ok { base with verified := chain_valid && sig_valid, tcb_status := "local_only" }
          else
            .ok { base with
                  verified := false
                  tcb_status := p.tcb_status.getD "verification_failed" }
        else
          .ok { base with
                verified := chain_valid && sig_valid
                tcb_status := if chain_valid && sig_valid then "local_only"
                              else "verification_failed" }

/-! ## RA-TLS (`src/sdk/easyenclave/ratls.py`)

Key pairs are opaque: a private key is a `Nat`, `pubOf` maps it to its
public key, `spkiDER` is the DER `SubjectPublicKeyInfo` encoding and
`sha256` the hash, all passed as parameters.  A certificate is its public
key together with its extensions. -/

/-- `RATLS_QUOTE_OID` (ratls.py line 16). -/
def RATLS_QUOTE_OID : String := "1.3.6.1.4.1.57264.1.1"

/-- An X.509 certificate as `verify_ratls_cert` reads it. -/
structure RCert where
  pubkey : Nat
  extensions : List (String × List Nat)
deriving Repr, DecidableEq

/-- `RatlsVerifyResult` dataclass (ratls.py lines 19-24). -/
structure RatlsVerifyResult where
  verified : Bool
  reason : String
  report_data : Option String := none
  measurements : Option (List (String × String)) := none
deriving Repr, DecidableEq

/-- `public_key_digest` (ratls.py lines 27-32). -/
def public_key_digest (sha256 : List Nat → List Nat) (spkiDER : Nat → List Nat)
    (pubkey : Nat) : List Nat :=
  sha256 (spkiDER pubkey)

/-- `report_data_for_pubkey` (ratls.py lines 35-36). -/
def report_data_for_pubkey (sha256 : List Nat → List Nat) (spkiDER : Nat → List Nat)
    (pubkey : Nat) : List Nat :=
  public_key_digest sha256 spkiDER pubkey ++ List.replicate 32 0

/-- `build_ratls_cert` (ratls.py lines 39-58): a self-signed certificate
for `private_key`'s public key carrying the quote under the RA-TLS OID.
Validity window, CN and signature are not modelled. -/
def build_ratls_cert (quote : List Nat) (pubOf : Nat → Nat) (private_key : Nat) : RCert :=
  ⟨pubOf private_key, [(RATLS_QUOTE_OID, quote)]⟩

/-- `extract_quote_from_cert` (ratls.py lines 61-67). -/
def extract_quote_from_cert (cert : RCert) : List Nat :=
  (lookupStr cert.extensions RATLS_QUOTE_OID).getD []

/-- The fields of an allowlist document (see §6 of the agent docs and
allowlist.py): only the keys the modelled code reads. -/
structure AllowlistDoc where
  version : Option String := none
  release_tag : Option String := none
  measurements : List (String × String) := []
  report_data : Option String := none
  quote_measurements : Option (List (String × String)) := none
deriving Repr, DecidableEq

/-- Key loop of `match_quote_measurements` (ratls.py lines 74-79). -/
def matchQMLoop : List (String × String) → List (String × String) → Bool × String
  | [], _ => (true, "ok")
  | (k, v) :: rest, meas =>
      if k == "report_data" then matchQMLoop rest meas
      else if lookupStr meas k == some v then matchQMLoop rest meas
      else (false, "measurement_mismatch:" ++ k)

/-- `match_quote_measurements` (ratls.py lines 70-79). -/
def match_quote_measurements (allowlist : AllowlistDoc)
    (measurements : List (String × String)) : Bool × String :=
  let expected := allowlist.quote_measurements.getD []
  if expected.isEmpty then (false, "allowlist_missing_quote_measurements")
  else matchQMLoop expected measurements

/-- Python `str.lower()` on ASCII strings (the hex strings compared
here), written so that it evaluates by kernel reduction. -/
def strToLower (s : String) : String :=
  String.mk (s.data.map Char.toLower)

/-- `verify_ratls_cert` (ratls.py lines 82-124). -/
def verify_ratls_cert (o : VerifyOracle) (sha256 : List Nat → List Nat)
    (spkiDER : Nat → List Nat) (cert : Option RCert)
    (allowlist : Option AllowlistDoc) (skip_pccs require_allowlist : Bool) :
    RatlsVerifyResult :=
  match cert with
  | none => ⟨false, "missing_peer_cert", none, none⟩
  | some c =>
      let quote := extract_quote_from_cert c
      if quote.isEmpty then ⟨false, "missing_quote_extension", none, none⟩
      else
        let expected_report := hexOfBytes (report_data_for_pubkey sha256 spkiDER c.pubkey)
        match verify_quote o quote none skip_pccs with
        | .error e => ⟨false, "dcap_error:" ++ e.msg, none, none⟩
        | .ok result =>
            match lookupStr result.measurements "report_data" with
            | none => ⟨false, "missing_report_data", none, none⟩
            | some rd =>
                if rd == "" then ⟨false, "missing_report_data", none, none⟩
                else if strToLower rd ≠ strToLower expected_report then
                  ⟨false, "report_data_mismatch", some rd, some result.measurements⟩
                else if !result.verified then
                  ⟨false, "dcap_verification_failed", some rd, some result.measurements⟩
                else
                  match allowlist with
                  | none =>
                      if require_allowlist then
                        ⟨false, "missing_allowlist", some rd, some result.measurements⟩
                      else ⟨true, "ok", some rd, some result.measurements⟩
                  | some al =>
                      let mq := match_quote_measurements al result.measurements
                      if !mq.fst then
                        ⟨false, mq.snd, some rd, some result.measurements⟩
                      else ⟨true, "ok", some rd, some result.measurements⟩

/-! ## Allowlist store (`src/control_plane/allowlist.py`)

The HTTP fetches are an oracle `download`; the release metadata is the
already-parsed asset list (`name → browser_download_url`). -/

/-- `AllowlistEntry` dataclass (allowlist.py lines 10-15). -/
structure CacheEntry where
  repo : String
  release_tag : String
  allowlist : AllowlistDoc
  fetched_at : Int
deriving Repr, DecidableEq

/-- Pair-keyed first-match lookup (dict keyed by `(repo, release_tag)`). -/
def lookupKey2 {α : Type} : List ((String × String) × α) → String × String → Option α
  | [], _ => none
  | (k, v) :: rest, key => if k == key then some v else lookupKey2 rest key

/-- Pair-keyed dict assignment. -/
def setKey2 {α : Type} : List ((String × String) × α) → String × String → α →
    List ((String × String) × α)
  | [], key, v => [(key, v)]
  | (k, w) :: rest, key, v =>
      if k == key then (key, v) :: rest else (k, w) :: setKey2 rest key v

/-- Pair-keyed `dict.pop(key, None)`. -/
def removeKey2 {α : Type} : List ((String × String) × α) → String × String →
    List ((String × String) × α)
  | [], _ => []
  | (k, w) :: rest, key =>
      if k == key then rest else (k, w) :: removeKey2 rest key

/-- `AllowlistCache` (allowlist.py lines 18-38). -/
structure AllowlistCacheSt where
  ttl : Int
  items : List ((String × String) × CacheEntry) := []
deriving Repr, DecidableEq

/-- `AllowlistCache.get` (allowlist.py lines 23-30); `time.time()` is the
explicit `now`.  Returns the result and the (possibly expired-entry
popping) new cache. -/
def AllowlistCacheSt.get (c : AllowlistCacheSt) (repo release_tag : String)
    (now : Int) : Option AllowlistDoc × AllowlistCacheSt :=
  match lookupKey2 c.items (repo, release_tag) with
  | none => (none, c)
  | some entry =>
      if c.ttl < now - entry.fetched_at then
        (none, { c with items := removeKey2 c.items (repo, release_tag) })
      else (some entry.allowlist, c)

/-- `AllowlistCache.put` (allowlist.py lines 32-38). -/
def AllowlistCacheSt.put (c : AllowlistCacheSt) (repo release_tag : String)
    (allowlist : AllowlistDoc) (now : Int) : AllowlistCacheSt :=
  let entry : CacheEntry := ⟨repo, release_tag, allowlist, now⟩
  { c with items := setKey2 c.items (repo, release_tag) entry }

/-- `fetch_allowlist` (allowlist.py lines 41-66): locate the named asset in
the release metadata, download and parse it.  The parsed document is
returned as-is; the function performs no content validation. -/
def fetch_allowlist (release_assets : List (String × String))
    (download : String → AllowlistDoc) (asset_name : String) :
    Except String AllowlistDoc :=
  match lookupStr release_assets asset_name with
  | none => .error ("Allowlist asset not found: " ++ asset_name)
  | some asset_url =>
      if asset_url == "" then .error ("Allowlist asset not found: " ++ asset_name)
      else .ok (download asset_url)

/-- The `vm_image_id` presence check that does exist in the repository:
`src/action/src/verify_agent_attestation.py` lines 31-34 exits with code 2
when `allowlist["measurements"]` lacks `vm_image_id`.  Returns the exit
code taken by that guard, `none` when the guard passes. -/
def verify_agent_attestation_vm_image_id_guard (allowlist : AllowlistDoc) : Option Nat :=
  if (lookupStr allowlist.measurements "vm_image_id").isNone then some 2 else none

/-! ## Witness fixtures and loop-effect definitions -/

/-- A concrete record for witnesses: the state after a first successful
`register` of app `"demo"` at time 0 with `ttl_days = 30`. -/
def rec0 : AppRecord :=
  { app_name := "demo", repo := "r", release_tag := "t", network := "forge-1",
    agent_id := "g", registered_at := 0, registration_expires_at := 30 }

/-- Projection: the `verified` field of a `verify_quote` result. -/
def vqVerified : Except DCAPError VQResult → Option Bool
  | .ok r => some r.verified
  | .error _ => none

/-- Projection: the `version` field of a `verify_quote` result. -/
def vqVersion : Except DCAPError VQResult → Option Nat
  | .ok r => some r.version
  | .error _ => none

/-- Projection: the `tcb_status` field of a `verify_quote` result. -/
def vqTcb : Except DCAPError VQResult → Option String
  | .ok r => some r.tcb_status
  | .error _ => none

/-- An oracle whose chain and signature checks succeed and whose PCCS
lookup verifies. -/
def trivialOracle : VerifyOracle :=
  { extractCerts := fun _ => []
    verifyChain := fun _ => (true, "ok")
    verifySig := fun _ _ => (true, "ok")
    pccs := fun _ => { status := "verified", tcb_status := some "UpToDate" } }

/-- A syntactically well-formed quote whose header carries `version = 1`:
48-byte header (`version = 1`, `att_key_type = 2`, `tee_type = 0x81`),
zeroed 584-byte TD report, `sig_len = 128`, 128 zero signature bytes. -/
def quoteV1 : List Nat :=
  [1, 0, 2, 0, 0x81, 0, 0, 0] ++ List.replicate 624 0
    ++ [128, 0, 0, 0] ++ List.replicate 128 0

/-- An oracle whose chain/signature checks succeed but whose PCCS client
fails on the network (`verify_with_pccs` returns `"partial"`). -/
def partialPccsOracle : VerifyOracle :=
  { trivialOracle with pccs := fun _ => { status := "partial" } }

/-- The `expected_report` hex string of `verify_ratls_cert` (ratls.py line
98). -/
def ratlsExpectedReportHex (sha256 : List Nat → List Nat) (spkiDER : Nat → List Nat)
    (c : RCert) : String :=
  hexOfBytes (report_data_for_pubkey sha256 spkiDER c.pubkey)

/-- The `report_data` measurement that `verify_ratls_cert` reads from the
`verify_quote` result (ratls.py line 105). -/
def ratlsQuoteReportHex (o : VerifyOracle) (c : RCert) (sp : Bool) : Option String :=
  match verify_quote o (extract_quote_from_cert c) none sp with
  | .ok r => lookupStr r.measurements "report_data"
  | .error _ => none

/-- The measurements of the `verify_quote` result inside
`verify_ratls_cert`. -/
def ratlsQuoteMeasurements (o : VerifyOracle) (c : RCert) (sp : Bool) :
    Option (List (String × String)) :=
  match verify_quote o (extract_quote_from_cert c) none sp with
  | .ok r => some r.measurements
  | .error _ => none

/-- A fixed hash returning 32 bytes of 3. -/
def sha3 : List Nat → List Nat := fun _ => List.replicate 32 3

/-- A fixed hash returning 32 zero bytes. -/
def shaZero : List Nat → List Nat := fun _ => List.replicate 32 0

/-- A fixed hash returning 32 bytes of 1. -/
def shaOne : List Nat → List Nat := fun _ => List.replicate 32 1

/-- A one-byte DER encoding stand-in. -/
def spkiId : Nat → List Nat := fun n => [n]

/-- A quote whose report_data bytes are `sha3`'s digest followed by 32
zero bytes. -/
def quoteA : List Nat :=
  List.replicate 568 0 ++ (List.replicate 32 3 ++ List.replicate 32 0)

/-- A certificate carrying `quoteV1` (whose report_data bytes are all
zero) under the RA-TLS OID. -/
def certZ : RCert := ⟨0, [(RATLS_QUOTE_OID, quoteV1)]⟩

/-- An allowlist document whose `measurements` lack `vm_image_id`. -/
def docNoVm : AllowlistDoc := { measurements := [("rtmr0", "aa")] }

/-- The `attest_miss:"nonce_mismatch"` ledger events in a server state. -/
def nonceMissEvents (st : ServerState) : List NodeEventRow :=
  st.store.events.filter (fun e =>
    e.event_type == "attest_miss" && e.detail == some "nonce_mismatch")

/-- Concrete nonce-mismatch scenario (spec §8 E2): the app `"demo"` is
registered, attested valid, connected; the agent answers the pending nonce
`"cafef00d"` with `"deadbeef"`; then the socket close runs the disconnect
handler. -/
def recConn : AppRecord :=
  { rec0 with
    attestation_status := "valid"
    health_status := "pass"
    ws_connected := true
    tunnel_id := some "demo:t" }

/-- The session of the nonce-mismatch scenario. -/
def sessConn : ServerSession :=
  { app_name := some "demo"
    repo := some "r"
    release_tag := some "t"
    network := "forge-1"
    agent_id := some "g"
    tunnel_id := some "demo:t"
    pending_nonce := some "cafef00d"
    registered := true
    attesting := true }

/-- The server state of the nonce-mismatch scenario. -/
def stConn : ServerState :=
  { cfg := ⟨30, 7⟩
    registry := [("demo", recConn)]
    store := Store.empty.ensure_node "g" }

/-- Run the mismatching attest_response, then the disconnect handler. -/
def nonceMismatchRun : Option (ServerState × ServerState) :=
  match handleAttestResponse stConn sessConn (some "deadbeef") false none
      ⟨true, "ok", false, none⟩ 10 "T10" with
  | .ok (st1, s1) =>
      match handleDisconnect st1 s1 10 "T10" with
      | .ok st2 => some (st1, st2)
      | .error _ => none
  | .error _ => none

/-- Initial server state: empty registry, empty ledger. -/
def stInit : ServerState := { cfg := ⟨30, 7⟩, registry := [], store := Store.empty }

/-- An accepted `register` frame for app `"demo"` / agent `"g"`. -/
def regStep : ServerState × ServerSession :=
  handleRegister stInit {} (some "r") (some "t") (some "demo") (some "g")
    (some "forge-1") none "n1" "abcd1234"

/-- The first attestation round, failing verification
(`measurement_mismatch:mrtd`). -/
def failAttestStep : Except String (ServerState × ServerSession) :=
  handleAttestResponse regStep.fst regStep.snd (some "n1") false none
    ⟨false, "measurement_mismatch:mrtd", false, none⟩ 10 "T10"

/-- The disconnect cleanup after the failed first attestation. -/
def failRun : Option ServerState :=
  match failAttestStep with
  | .ok (st1, s1) =>
      match handleDisconnect st1 s1 10 "T10" with
      | .ok st2 => some st2
      | .error _ => none
  | .error _ => none

/-- The account credited by one `settle_period` loop iteration: the
provider when eligible, the paying account when not. -/
def settleBeneficiary (elig : Bool) (node_id : String) (u : UsageRow) : String :=
  if elig then node_id else u.account_id

/-- The ledger entry appended by one `settle_period` loop iteration. -/
def settleEntry (elig : Bool) (node_id : String) (u : UsageRow) : LedgerEntryRow :=
  if elig then ⟨node_id, u.amount_cents, "settlement", some "usage", some u.usage_id⟩
  else ⟨u.account_id, u.amount_cents, "unlock", some "usage", some u.usage_id⟩

/-- The final usage status written by `settle_period`. -/
def settleStatusStr (elig : Bool) : String := if elig then "settled" else "failed"

/-- The final credit-lock status written by `settle_period`. -/
def lockStatusStr (elig : Bool) : String := if elig then "settled" else "released"

/-- The per-row effect of the whole settlement loop on the usage table. -/
def updUsage (elig : Bool) (ids : List String) (u : UsageRow) : UsageRow :=
  if ids.contains u.usage_id then { u with status := settleStatusStr elig } else u

/-- The per-row effect of the whole settlement loop on the credit locks. -/
def updLock (elig : Bool) (ids : List String) (l : CreditLockRow) : CreditLockRow :=
  if ids.contains l.lock_id then { l with status := lockStatusStr elig } else l

/-- Total amount the settlement loop credits to account `a`. -/
def amountsFor (elig : Bool) (node_id : String) (ms : List UsageRow) (a : String) : Int :=
  ((ms.filter (fun u => settleBeneficiary elig node_id u == a)).map
    UsageRow.amount_cents).sum

/-- A concrete ledger store with one eligible node `w` and one locked
usage row, for exercising `settle_period`. -/
def settleW : Store where
  nodes := [⟨"w", "active", some 50, some "t1", some 1000, "valid", "pass", none⟩]
  accounts := [("alice", 900), ("w", 0)]
  ledger := []
  locks := [⟨"l1", "alice", "u1", 100, "P0", "P1", "locked"⟩]
  usage := [⟨"u1", "w", "alice", 2, 50, 100, "P0", "P1", "locked", "l1"⟩]
  events := []
  abuse := []

/-- The store `settle_period` produces from `settleW`. -/
def settleWOut : Store where
  nodes := [⟨"w", "active", some 50, some "t1", some 1000, "valid", "pass", none⟩]
  accounts := [("alice", 900), ("w", 100)]
  ledger := [⟨"w", 100, "settlement", some "usage", some "u1"⟩]
  locks := [⟨"l1", "alice", "u1", 100, "P0", "P1", "settled"⟩]
  usage := [⟨"u1", "w", "alice", 2, 50, 100, "P0", "P1", "settled", "l1"⟩]
  events := []
  abuse := []

/-! ## Helper lemmas -/

theorem lookupStr_setStr_self {α : Type} (l : List (String × α)) (k : String) (v : α)
    (h : (lookupStr l k).isSome) : lookupStr (setStr l k v) k = some v := by
  induction l with
  | nil => simp [lookupStr] at h
  | cons p rest ih =>
      obtain ⟨pk, pv⟩ := p
      cases hk : (pk == k) with
      | true => simp [lookupStr, setStr, hk]
      | false =>
          simp only [lookupStr, setStr, hk, Bool.false_eq_true, if_false] at h ⊢
          exact ih h

theorem lookupStr_append_right {α : Type} (l : List (String × α)) (k : String) (v : α)
    (h : lookupStr l k = none) : lookupStr (l ++ [(k, v)]) k = some v := by
  induction l with
  | nil => simp [lookupStr]
  | cons p rest ih =>
      obtain ⟨pk, pv⟩ := p
      cases hk : (pk == k) with
      | true => simp [lookupStr, hk] at h
      | false =>
          simp only [List.cons_append, lookupStr, hk, Bool.false_eq_true, if_false] at h ⊢
          exact ih h

theorem exceptBind_ok {ε α β : Type} (a : α) (f : α → Except ε β) :
    (Except.ok a : Except ε α) >>= f = f a := rfl

/-! ## Claim theorems -/

/-- C1: the `allowed` flag of `Registry.status_payload` is true exactly when
the registration state is active, the attestation status is valid, the
health status is pass, the WebSocket is connected, and — on the network
that requires sealing in `status_payload`, namely `"prod"` — the record is
sealed.  In particular `allowed` implies every one of those conjuncts. -/
theorem status_allowed_iff (warn_days now : Int) (r : AppRecord) :
    Registry.status_allowed warn_days r now = true ↔
      (r.registration_state warn_days now = "active" ∧
       r.attestation_status = "valid" ∧
       r.health_status = "pass" ∧
       r.ws_connected = true ∧
       (r.network = "prod" → r.sealed = true)) := by
  unfold Registry.status_allowed AppRecord.registration_state AppRecord.ttl_warning_at
  split_ifs with h1 h2 <;>
    constructor <;> intro h <;>
    first
      | (exfalso; revert h; simp_all [String.ext_iff]; done)
      | (constructor <;> simp_all [String.ext_iff])
      | simp_all [String.ext_iff]

theorem register_ok_lookup (cfg : RegistryConfig) (apps apps1 : RegistryMap)
    (rec1 : AppRecord) (n repo tag net aid : String) (t0 : Int)
    (h : Registry.register cfg apps n repo tag net aid t0 = .ok (apps1, rec1)) :
    lookupStr apps1 n = some rec1 ∧ rec1.repo = repo ∧
      rec1.release_tag = tag ∧ rec1.network = net ∧ rec1.agent_id = aid := by
  unfold Registry.register at h
  cases hl : lookupStr apps n with
  | some record =>
      rw [hl] at h
      by_cases hr : record.repo ≠ repo
      · simp [hr] at h
      · simp only [hr, if_false, if_neg hr, Except.ok.injEq, Prod.mk.injEq] at h
        obtain ⟨h1, h2⟩ := h
        subst h1; subst h2
        refine ⟨?_, by push_neg at hr; simpa using hr.symm ▸ rfl, rfl, rfl, rfl⟩
        exact lookupStr_setStr_self apps n _ (by simp [hl])
  | none =>
      rw [hl] at h
      simp only [Except.ok.injEq, Prod.mk.injEq] at h
      obtain ⟨h1, h2⟩ := h
      subst h1; subst h2
      exact ⟨lookupStr_append_right apps n _ hl, rfl, rfl, rfl, rfl⟩

/-- C9: `Registry.register` is idempotent for an identical
`(app_name, repo, release_tag, network, agent_id)` tuple after an initial
success — the repeat succeeds and the resulting record differs from the
first only in `registered_at` and `registration_expires_at` (so
`last_attested_at`, `last_health_at`, `sealed`, `attestation_status`,
`health_status`, `ws_connected` and `tunnel_id` are preserved) — and for
any existing record, `register` with the same `app_name` but a different
`repo` fails (the `ValueError` precedes every mutation, so the record is
untouched). -/
theorem register_idempotent_and_repo_guard (cfg : RegistryConfig) :
    (∀ (apps apps1 : RegistryMap) (rec1 : AppRecord) (n repo tag net aid : String)
       (t0 t1 : Int),
       Registry.register cfg apps n repo tag net aid t0 = .ok (apps1, rec1) →
       ∃ apps2, Registry.register cfg apps1 n repo tag net aid t1 =
         .ok (apps2, { rec1 with
           registered_at := t1
           registration_expires_at := t1 + cfg.ttl_days })) ∧
    (∀ (apps : RegistryMap) (n repo' tag net aid : String) (t : Int) (rec : AppRecord),
       Registry.get apps n = some rec → rec.repo ≠ repo' →
       Registry.register cfg apps n repo' tag net aid t =
         .error "app_name already bound to a different repo") := by
  constructor
  · intro apps apps1 rec1 n repo tag net aid t0 t1 h
    obtain ⟨hl, hrepo, htag, hnet, haid⟩ :=
      register_ok_lookup cfg apps apps1 rec1 n repo tag net aid t0 h
    refine ⟨setStr apps1 n { rec1 with
      registered_at := t1
      registration_expires_at := t1 + cfg.ttl_days }, ?_⟩
    have hnn : ¬rec1.repo ≠ repo := by simp [hrepo]
    subst htag hnet haid
    simp [Registry.register, hl, hnn]
  · intro apps n repo' tag net aid t rec hget hne
    unfold Registry.register
    unfold Registry.get at hget
    rw [hget]
    simp [hne]

theorem register_idempotent_and_repo_guard_witness :
    (∃ apps2, Registry.register ⟨30, 7⟩ [("demo", rec0)] "demo" "r" "t" "forge-1" "g" 5 =
      .ok (apps2, { rec0 with
        registered_at := 5
        registration_expires_at := 5 + (30 : Int) })) ∧
    Registry.register ⟨30, 7⟩ [("demo", rec0)] "demo" "other" "t" "forge-1" "g" 5 =
      .error "app_name already bound to a different repo" := by
  constructor
  · exact (register_idempotent_and_repo_guard ⟨30, 7⟩).1 [] [("demo", rec0)] rec0
      "demo" "r" "t" "forge-1" "g" 0 5 rfl
  · exact (register_idempotent_and_repo_guard ⟨30, 7⟩).2 [("demo", rec0)]
      "demo" "other" "t" "forge-1" "g" 5 rec0 rfl (by simp [rec0])

set_option maxRecDepth 8192 in
theorem verify_quote_version1_counterexample :
    readLE16 quoteV1 0 = 1 ∧
    vqVerified (verify_quote trivialOracle quoteV1 none true) = some true ∧
    vqVersion (verify_quote trivialOracle quoteV1 none true) = some 1 := by
  decide

theorem getD_take_lt (l : List Nat) (n i : Nat) (h : i < n) :
    (l.take n).getD i 0 = l.getD i 0 := by
  simp [List.getD_eq_getElem?_getD, List.getElem?_take, h]

theorem parse_quote_header_error (data : List Nat) (e : DCAPError)
    (h : parse_quote_header data = .error e) : e.msg = "Quote header too short" := by
  unfold parse_quote_header at h
  split at h
  · simp only [Except.error.injEq] at h; subst h; rfl
  · simp at h

theorem parse_td_report_error (data : List Nat) (e : DCAPError)
    (h : parse_td_report data = .error e) : e.msg = "TD Report too short" := by
  unfold parse_td_report at h
  split at h
  · simp only [Except.error.injEq] at h; subst h; rfl
  · simp at h

theorem parse_quote_error_msgs (q : List Nat) (e : DCAPError)
    (h : parse_quote q = .error e) :
    e.msg = "Quote too short" ∨ e.msg = "Quote header too short" ∨
    e.msg = "Not a TDX quote" ∨ e.msg = "TD Report too short" ∨
    e.msg = "Quote truncated: missing signature data" ∨
    e.msg = "Signature data too short" := by
  unfold parse_quote at h
  split at h
  · simp only [Except.error.injEq] at h; subst h; decide
  · split at h
    · rename_i e' heq
      simp only [Except.error.injEq] at h
      subst h
      simp [parse_quote_header_error _ _ heq]
    · split at h
      · simp only [Except.error.injEq] at h; subst h; decide
      · split at h
        · rename_i e' heq2
          simp only [Except.error.injEq] at h
          subst h
          simp [parse_td_report_error _ _ heq2]
        · dsimp only at h
          split at h
          · simp only [Except.error.injEq] at h; subst h; decide
          · split at h
            · simp only [Except.error.injEq] at h; subst h; decide
            · split at h <;> simp_all

theorem verify_quote_error_msgs (o : VerifyOracle) (q : List Nat)
    (em : Option (List (String × String))) (sp : Bool) (e : DCAPError)
    (h : verify_quote o q em sp = .error e) :
    e.msg = "Quote too short" ∨ e.msg = "Quote header too short" ∨
    e.msg = "Not a TDX quote" ∨ e.msg = "TD Report too short" ∨
    e.msg = "Quote truncated: missing signature data" ∨
    e.msg = "Signature data too short" := by
  unfold verify_quote at h
  split at h
  · simp only [Except.error.injEq] at h; subst h; decide
  · split at h
    · rename_i e' heq
      simp only [Except.error.injEq] at h
      subst h
      exact parse_quote_error_msgs q e' heq
    · dsimp only at h
      split_ifs at h

theorem pySlice_head_length (q : List Nat) (n : Nat) (h : n ≤ q.length) :
    (pySlice q 0 n).length = n := by
  simp [pySlice]
  omega

/-- C5 corrected: quotes shorter than 636 bytes and quotes whose header
`tee_type ≠ 0x81` are rejected as the claim states, but neither
`parse_quote` nor `verify_quote` performs any check on the header
`version` field: every `DCAPError` they can raise is one of the six parse
errors — none is `"version_too_old"` — and a successful result carries no
reason field at all, so a quote with `version < 4` is not rejected (see the
counterexample, a fully-verifying version-1 quote). -/
theorem quote_rejection_reasons :
    (∀ (o : VerifyOracle) (q : List Nat) (em : Option (List (String × String)))
       (sp : Bool), q.length < 636 →
       verify_quote o q em sp = .error ⟨"Quote too short"⟩) ∧
    (∀ q : List Nat, 636 ≤ q.length → readLE32 q 4 ≠ 0x81 →
       parse_quote q = .error ⟨"Not a TDX quote"⟩) ∧
    (∀ (o : VerifyOracle) (q : List Nat) (em : Option (List (String × String)))
       (sp : Bool) (e : DCAPError),
       verify_quote o q em sp = .error e → e.msg ≠ "version_too_old") := by
  refine ⟨?_, ?_, ?_⟩
  · intro o q em sp h
    unfold verify_quote
    rw [if_pos h]
  · intro q hlen hne
    have hk : ¬q.length < 48 + 584 + 4 := by omega
    have hlen48 : ¬(pySlice q 0 48).length < 48 := by
      rw [pySlice_head_length q 48 (by omega)]
      omega
    have htee : readLE32 (pySlice q 0 48) 4 = readLE32 q 4 := by
      unfold readLE32 pySlice
      rw [List.drop_zero]
      rw [getD_take_lt q 48 4 (by omega), getD_take_lt q 48 5 (by omega),
          getD_take_lt q 48 6 (by omega), getD_take_lt q 48 7 (by omega)]
    have hdr : parse_quote_header (pySlice q 0 48) =
        .ok ⟨readLE16 (pySlice q 0 48) 0, readLE16 (pySlice q 0 48) 2,
          readLE32 (pySlice q 0 48) 4, pySlice (pySlice q 0 48) 8 10,
          pySlice (pySlice q 0 48) 10 12, pySlice (pySlice q 0 48) 12 28,
          pySlice (pySlice q 0 48) 28 48⟩ := by
      unfold parse_quote_header
      rw [if_neg hlen48]
    unfold parse_quote
    rw [if_neg hk, hdr]
    dsimp only
    rw [if_pos ?_]
    show readLE32 (pySlice q 0 48) 4 ≠ 0x81
    rw [htee]
    exact hne
  · intro o q em sp e h hver
    rcases verify_quote_error_msgs o q em sp e h with h' | h' | h' | h' | h' | h' <;>
      simp_all

set_option maxRecDepth 8192 in
theorem quote_rejection_reasons_witness :
    verify_quote trivialOracle [0] none true = .error ⟨"Quote too short"⟩ ∧
    parse_quote (List.replicate 764 0) = .error ⟨"Not a TDX quote"⟩ ∧
    ("Quote too short" : String) ≠ "version_too_old" :=
  ⟨quote_rejection_reasons.1 trivialOracle [0] none true (by decide),
   quote_rejection_reasons.2.1 (List.replicate 764 0) (by decide) (by decide),
   quote_rejection_reasons.2.2 trivialOracle [0] none true ⟨"Quote too short"⟩
     (quote_rejection_reasons.1 trivialOracle [0] none true (by decide))⟩

theorem parse_quote_ok_length (q : List Nat) (t : TDXQuote)
    (hp : parse_quote q = .ok t) : ¬q.length < 636 := by
  intro hc
  unfold parse_quote at hp
  rw [if_pos (by omega)] at hp
  simp at hp

/-- C8: with `skip_pccs = false`, when the PCCS collateral fetch fails for
network reasons (`verify_with_pccs` returns status `"partial"` — a TCB
Info fetch error — or `"error"`), `verify_quote` does not treat this as a
verification failure: the result's `verified` equals the conjunction of
certificate-chain validity and quote-signature validity (the measurement
gate, when expected measurements were supplied, must already have passed
for the PCCS step to run at all) and `tcb_status` is `"local_only"`. -/
theorem pccs_failure_local_only (o : VerifyOracle) (q : List Nat) (t : TDXQuote)
    (em : Option (List (String × String)))
    (hp : parse_quote q = .ok t)
    (hchain : (o.verifyChain (o.extractCerts t.cert_data)).fst = true)
    (hsig : (o.verifySig t q).fst = true)
    (hmeas : ∀ e, em = some e → measurementMismatch e (extract_measurements q) = false)
    (hpccs : (o.pccs q).status = "partial" ∨ (o.pccs q).status = "error") :
    vqVerified (verify_quote o q em false) =
      some ((o.verifyChain (o.extractCerts t.cert_data)).fst && (o.verifySig t q).fst) ∧
    vqTcb (verify_quote o q em false) = some "local_only" := by
  have hlen := parse_quote_ok_length q t hp
  unfold verify_quote
  rw [if_neg hlen, hp]
  dsimp only
  cases em with
  | none =>
      rcases hpccs with hst | hst <;>
        simp [vqVerified, vqTcb, hchain, hsig, hst]
  | some exp =>
      have hm := hmeas exp rfl
      rcases hpccs with hst | hst <;>
        simp [vqVerified, vqTcb, hchain, hsig, hst, hm]

set_option maxRecDepth 8192 in
theorem pccs_failure_local_only_witness :
    vqVerified (verify_quote partialPccsOracle quoteV1 none false) = some true ∧
    vqTcb (verify_quote partialPccsOracle quoteV1 none false) = some "local_only" := by
  cases ht : parse_quote quoteV1 with
  | error e =>
      exfalso
      have hok : (parse_quote quoteV1).isOk = true := by decide
      rw [ht] at hok
      simp [Except.isOk, Except.toBool] at hok
  | ok t =>
      have h := pccs_failure_local_only partialPccsOracle quoteV1 t none ht rfl rfl
        (fun e he => by cases he) (Or.inl rfl)
      exact ⟨h.1, h.2⟩

/-- C4: (a) a certificate built by `build_ratls_cert` from a quote whose
`report_data` bytes (quote[568:632], the field `extract_measurements`
reports) equal `report_data_for_pubkey` of the signing key carries that
quote under extension OID `1.3.6.1.4.1.57264.1.1`, and that `report_data`
has first 32 bytes `SHA256(DER-SPKI(cert.pubkey))` and last 32 bytes zero;
(b) `verify_ratls_cert` returns `verified` only when the quote's
`report_data` equals the expected value under case-insensitive hex
comparison, and a non-empty mismatching `report_data` yields exactly the
`report_data_mismatch` result. -/
theorem ratls_report_data_binding :
    (∀ (sha256 : List Nat → List Nat) (spkiDER : Nat → List Nat) (pubOf : Nat → Nat)
       (priv : Nat) (quote : List Nat),
       (sha256 (spkiDER (pubOf priv))).length = 32 →
       pySlice quote 568 632 = report_data_for_pubkey sha256 spkiDER (pubOf priv) →
       extract_quote_from_cert (build_ratls_cert quote pubOf priv) = quote ∧
       lookupStr (build_ratls_cert quote pubOf priv).extensions RATLS_QUOTE_OID
         = some quote ∧
       (pySlice quote 568 632).take 32 =
         sha256 (spkiDER (build_ratls_cert quote pubOf priv).pubkey) ∧
       (pySlice quote 568 632).drop 32 = List.replicate 32 0) ∧
    (∀ (o : VerifyOracle) (sha256 : List Nat → List Nat) (spkiDER : Nat → List Nat)
       (c : RCert) (al : Option AllowlistDoc) (sp ra : Bool),
       ((verify_ratls_cert o sha256 spkiDER (some c) al sp ra).verified = true →
         (ratlsQuoteReportHex o c sp).map strToLower =
           some (strToLower (ratlsExpectedReportHex sha256 spkiDER c))) ∧
       (∀ rd : String, ratlsQuoteReportHex o c sp = some rd → rd ≠ "" →
         strToLower rd ≠ strToLower (ratlsExpectedReportHex sha256 spkiDER c) →
         verify_ratls_cert o sha256 spkiDER (some c) al sp ra =
           ⟨false, "report_data_mismatch", some rd, ratlsQuoteMeasurements o c sp⟩)) := by
  constructor
  · intro sha256 spkiDER pubOf priv quote hlen32 hrd
    refine ⟨?_, ?_, ?_, ?_⟩
    · simp [extract_quote_from_cert, build_ratls_cert, lookupStr]
    · simp [build_ratls_cert, lookupStr]
    · rw [hrd]
      show (report_data_for_pubkey sha256 spkiDER (pubOf priv)).take 32 = _
      unfold report_data_for_pubkey public_key_digest build_ratls_cert
      exact List.take_left' hlen32
    · rw [hrd]
      unfold report_data_for_pubkey public_key_digest
      exact List.drop_left' hlen32
  · intro o sha256 spkiDER c al sp ra
    constructor
    · intro hv
      unfold verify_ratls_cert at hv
      dsimp only at hv
      split at hv
      · simp at hv
      · split at hv
        · simp at hv
        · rename_i result heqv
          split at hv
          · simp at hv
          · rename_i rd heqrd
            split_ifs at hv with h1 h2 h3 <;>
              first
                | (simp at hv; done)
                | (unfold ratlsQuoteReportHex
                   rw [heqv]
                   dsimp only
                   rw [heqrd]
                   push_neg at h2
                   simp [h2, ratlsExpectedReportHex])
    · intro rd hrd hne hmm
      unfold ratlsQuoteReportHex at hrd
      unfold verify_ratls_cert
      dsimp only
      split
      · rename_i hq
        rw [List.isEmpty_iff] at hq
        have : verify_quote o (extract_quote_from_cert c) none sp =
            .error ⟨"Quote too short"⟩ := by
          unfold verify_quote
          rw [hq]
          rw [if_pos (by simp)]
        rw [this] at hrd
        simp at hrd
      · split
        · rename_i e heqv
          rw [heqv] at hrd
          simp at hrd
        · rename_i result heqv
          rw [heqv] at hrd
          dsimp only at hrd
          rw [hrd]
          dsimp only
          rw [if_neg (by simpa using hne)]
          rw [if_pos (by simpa [ratlsExpectedReportHex] using hmm)]
          unfold ratlsQuoteMeasurements
          rw [heqv]

set_option maxRecDepth 16384 in
theorem ratls_report_data_binding_witness :
    (extract_quote_from_cert (build_ratls_cert quoteA id 5) = quoteA ∧
     lookupStr (build_ratls_cert quoteA id 5).extensions RATLS_QUOTE_OID = some quoteA ∧
     (pySlice quoteA 568 632).take 32 =
       sha3 (spkiId (build_ratls_cert quoteA id 5).pubkey) ∧
     (pySlice quoteA 568 632).drop 32 = List.replicate 32 0) ∧
    (ratlsQuoteReportHex trivialOracle certZ true).map strToLower =
      some (strToLower (ratlsExpectedReportHex shaZero spkiId certZ)) ∧
    verify_ratls_cert trivialOracle shaOne spkiId (some certZ) none true false =
      ⟨false, "report_data_mismatch", some (hexOfBytes (List.replicate 64 0)),
        ratlsQuoteMeasurements trivialOracle certZ true⟩ :=
  ⟨ratls_report_data_binding.1 sha3 spkiId id 5 quoteA (by decide) (by decide),
   (ratls_report_data_binding.2 trivialOracle shaZero spkiId certZ none true false).1
     (by decide),
   (ratls_report_data_binding.2 trivialOracle shaOne spkiId certZ none true false).2
     (hexOfBytes (List.replicate 64 0)) (by decide) (by decide) (by decide)⟩

theorem lookupKey2_setKey2_self {α : Type} (l : List ((String × String) × α))
    (key : String × String) (v : α) :
    lookupKey2 (setKey2 l key v) key = some v := by
  induction l with
  | nil => simp [setKey2, lookupKey2]
  | cons p rest ih =>
      obtain ⟨pk, pv⟩ := p
      cases hk : (pk == key) with
      | true => simp [setKey2, lookupKey2, hk]
      | false =>
          simp only [setKey2, lookupKey2, hk, Bool.false_eq_true, if_false]
          exact ih

theorem fetch_allowlist_accepts_missing_vm_image_id_counterexample :
    fetch_allowlist [("agent-attestation-allowlist.json", "https://assets/allowlist")]
      (fun _ => docNoVm) "agent-attestation-allowlist.json" = .ok docNoVm ∧
    (lookupStr docNoVm.measurements "vm_image_id").isNone = true ∧
    (((⟨300, []⟩ : AllowlistCacheSt).put "o/r" "v1" docNoVm 100).get "o/r" "v1" 150).fst
      = some docNoVm :=
  ⟨rfl, rfl, rfl⟩

/-- C6 corrected: the control-plane allowlist fetch path performs no
`vm_image_id` validation — `fetch_allowlist` returns whatever document the
asset download yields, and `AllowlistCache.put`/`get` cache and serve it —
so a document lacking `vm_image_id` is not rejected at load.  The only
such load-time guard in the repository is in the release workflow script
`verify_agent_attestation.py`, which exits with code 2. -/
theorem fetch_allowlist_no_validation :
    (∀ (assets : List (String × String)) (download : String → AllowlistDoc)
       (asset_name url : String),
       lookupStr assets asset_name = some url → url ≠ "" →
       fetch_allowlist assets download asset_name = .ok (download url)) ∧
    (∀ (c : AllowlistCacheSt) (repo tag : String) (doc : AllowlistDoc) (now later : Int),
       later - now ≤ c.ttl →
       ((c.put repo tag doc now).get repo tag later).fst = some doc) ∧
    (∀ doc : AllowlistDoc, (lookupStr doc.measurements "vm_image_id").isNone →
       verify_agent_attestation_vm_image_id_guard doc = some 2) := by
  refine ⟨?_, ?_, ?_⟩
  · intro assets download asset_name url hfound hne
    unfold fetch_allowlist
    rw [hfound]
    dsimp only
    rw [if_neg (by simpa using hne)]
  · intro c repo tag doc now later htt
    unfold AllowlistCacheSt.get AllowlistCacheSt.put
    dsimp only
    rw [lookupKey2_setKey2_self]
    dsimp only
    rw [if_neg (by omega)]
  · intro doc hmiss
    unfold verify_agent_attestation_vm_image_id_guard
    rw [if_pos (by simpa using hmiss)]

theorem fetch_allowlist_no_validation_witness :
    fetch_allowlist [("agent-attestation-allowlist.json", "u")] (fun _ => docNoVm)
      "agent-attestation-allowlist.json" = .ok docNoVm ∧
    (((⟨300, []⟩ : AllowlistCacheSt).put "o/r" "v1" docNoVm 100).get "o/r" "v1" 150).fst
      = some docNoVm ∧
    verify_agent_attestation_vm_image_id_guard docNoVm = some 2 :=
  ⟨fetch_allowlist_no_validation.1 [("agent-attestation-allowlist.json", "u")]
     (fun _ => docNoVm) "agent-attestation-allowlist.json" "u" (by decide) (by decide),
   fetch_allowlist_no_validation.2.1 ⟨300, []⟩ "o/r" "v1" docNoVm 100 150 (by decide),
   fetch_allowlist_no_validation.2.2 docNoVm (by decide)⟩

theorem ensure_node_events (s : Store) (n : String) :
    (s.ensure_node n).events = s.events := by
  unfold Store.ensure_node Store.ensure_account
  split
  · rfl
  · dsimp only
    split <;> rfl

theorem store_mark_health_events (s : Store) (n st : String) :
    (s.mark_health n st).events = s.events := by
  unfold Store.mark_health
  rw [ensure_node_events]

theorem record_node_event_events (s : Store) (n e at_ : String) (d : Option String) :
    (s.record_node_event n e at_ d).events = s.events ++ [⟨n, e, at_, d⟩] := by
  unfold Store.record_node_event
  dsimp only
  rw [ensure_node_events]

theorem nonce_mismatch_no_attest_miss_counterexample :
    nonceMismatchRun.map (fun p => p.fst.sent) = some [("invalid", "nonce_mismatch")] ∧
    nonceMismatchRun.map (fun p => p.fst.closed) = some true ∧
    (nonceMismatchRun.bind (fun p => Registry.get p.snd.registry "demo")).map
      (fun r => (r.ws_connected, r.attestation_status)) = some (false, "valid") ∧
    nonceMismatchRun.map (fun p => p.snd.store.events) =
      some [⟨"g", "health_miss", "T10", some "disconnect"⟩] ∧
    nonceMismatchRun.map (fun p => nonceMissEvents p.snd) = some [] :=
  ⟨rfl, rfl, rfl, rfl, rfl⟩

/-- C7 corrected: on an `attest_response` whose nonce differs from the
pending one, the server sends `status{invalid, nonce_mismatch}` and closes
the socket without touching the registry, the ledger, or the session — in
particular no `attest_miss` node event with detail `"nonce_mismatch"` is
recorded, contrary to the claim (the only event the subsequent disconnect
cleanup records is `health_miss:"disconnect"`); after that cleanup the
record (when it exists) reports `ws_connected = false` with its
`attestation_status` unchanged. -/
theorem nonce_mismatch_behaviour :
    (∀ (st : ServerState) (s : ServerSession) (n : String) (payloadNonce : Option String)
       (dl : Bool) (ff : Option String) (res : AttestationResult) (now : Int)
       (nowStr : String),
       s.pending_nonce = some n → payloadNonce ≠ some n →
       handleAttestResponse st s payloadNonce dl ff res now nowStr =
         .ok ({ st with
                sent := st.sent ++ [("invalid", "nonce_mismatch")]
                closed := true }, s)) ∧
    (∀ (st1 : ServerState) (s : ServerSession) (a : String) (rec : AppRecord)
       (g : String) (now : Int) (nowStr : String),
       s.app_name = some a → lookupStr st1.registry a = some rec →
       s.agent_id = some g →
       ∃ st2, handleDisconnect st1 s now nowStr = .ok st2 ∧
         Registry.get st2.registry a = some { rec with
           ws_connected := false
           tunnel_id := s.tunnel_id
           last_health_at := some now
           health_status := "fail" } ∧
         st2.store.events = st1.store.events ++
           [⟨g, "health_miss", nowStr, some "disconnect"⟩] ∧
         nonceMissEvents st2 = nonceMissEvents st1) := by
  constructor
  · intro st s n payloadNonce dl ff res now nowStr hpn hne
    unfold handleAttestResponse
    rw [hpn]
    dsimp only
    rw [if_pos hne]
    rfl
  · intro st1 s a rec g now nowStr happ hl hag
    unfold handleDisconnect
    rw [happ]
    dsimp only
    have hmc : Registry.mark_connection st1.registry a false s.tunnel_id =
        .ok (setStr st1.registry a
          { rec with ws_connected := false, tunnel_id := s.tunnel_id }) := by
      unfold Registry.mark_connection
      rw [hl]
    have hl1 : lookupStr (setStr st1.registry a
        { rec with ws_connected := false, tunnel_id := s.tunnel_id }) a =
        some { rec with ws_connected := false, tunnel_id := s.tunnel_id } :=
      lookupStr_setStr_self st1.registry a _ (by simp [hl])
    have hmh : Registry.mark_health (setStr st1.registry a
        { rec with ws_connected := false, tunnel_id := s.tunnel_id }) a "fail" now =
        .ok (setStr (setStr st1.registry a
          { rec with ws_connected := false, tunnel_id := s.tunnel_id }) a
          { rec with
              ws_connected := false
              tunnel_id := s.tunnel_id
              last_health_at := some now
              health_status := "fail" }) := by
      unfold Registry.mark_health
      rw [hl1]
    rw [hag, hmc, exceptBind_ok, hmh, exceptBind_ok]
    refine ⟨_, rfl, ?_, ?_, ?_⟩
    · unfold Registry.get
      exact lookupStr_setStr_self _ a _ (by simp [hl1])
    · dsimp only
      rw [store_mark_health_events, record_node_event_events]
    · unfold nonceMissEvents
      dsimp only
      rw [store_mark_health_events, record_node_event_events]
      simp

theorem nonce_mismatch_behaviour_witness :
    handleAttestResponse stConn sessConn (some "deadbeef") false none
      ⟨true, "ok", false, none⟩ 10 "T10" =
      .ok ({ stConn with
             sent := stConn.sent ++ [("invalid", "nonce_mismatch")]
             closed := true }, sessConn) ∧
    (∃ st2, handleDisconnect stConn sessConn 10 "T10" = .ok st2 ∧
      Registry.get st2.registry "demo" = some { recConn with
        ws_connected := false
        tunnel_id := sessConn.tunnel_id
        last_health_at := some 10
        health_status := "fail" } ∧
      st2.store.events = stConn.store.events ++
        [⟨"g", "health_miss", "T10", some "disconnect"⟩] ∧
      nonceMissEvents st2 = nonceMissEvents stConn) :=
  ⟨nonce_mismatch_behaviour.1 stConn sessConn "cafef00d" (some "deadbeef") false none
     ⟨true, "ok", false, none⟩ 10 "T10" rfl (by decide),
   nonce_mismatch_behaviour.2 stConn sessConn "demo" recConn "g" 10 "T10" rfl rfl rfl⟩

theorem exceptBind_err {ε α β : Type} (e : ε) (f : α → Except ε β) :
    (Except.error e : Except ε α) >>= f = .error e := rfl

theorem disconnect_after_failed_attestation_counterexample :
    regStep.snd.app_name = some "demo" ∧
    regStep.fst.registry = [] ∧
    failAttestStep.toOption.map (fun p => (p.fst.closed, p.fst.sent)) =
      some (true, [("invalid", "measurement_mismatch:mrtd")]) ∧
    failRun.isSome = true ∧
    (failRun.bind (fun st => Registry.get st.registry "demo")).map
      (fun r => r.attestation_status) = some "invalid" :=
  ⟨rfl, rfl, rfl, rfl, rfl⟩

/-- C10 corrected: for an `app_name` with no record, `mark_attested`,
`mark_health` and `mark_connection` all raise `KeyError` and create no
record, and a disconnect for a session whose `app_name` is set but has no
record reaches that `KeyError`; the `register` frame handler never touches
the registry, so this happens exactly when no `attest_response` was
processed for the session (none arrived, or it was rejected for nonce
mismatch or deadline) — a processed-but-failed verification does create
the record (server.py lines 330-337), and its disconnect completes
cleanup, contrary to the claim's "first attestation never succeeded"
wording (see the counterexample). -/
theorem mark_requires_record :
    (∀ (apps : RegistryMap) (a status : String) (sf con : Bool)
       (tid : Option String) (now : Int),
       lookupStr apps a = none →
       Registry.mark_attested apps a sf status now = .error "KeyError" ∧
       Registry.mark_health apps a status now = .error "KeyError" ∧
       Registry.mark_connection apps a con tid = .error "KeyError") ∧
    (∀ (st : ServerState) (s : ServerSession) (a : String) (now : Int)
       (nowStr : String),
       s.app_name = some a → lookupStr st.registry a = none →
       handleDisconnect st s now nowStr = .error "KeyError") ∧
    (∀ (st : ServerState) (s : ServerSession) (repo tag an ai nw : Option String)
       (rg : Option String) (nonce ts : String),
       ((handleRegister st s repo tag an ai nw rg nonce ts).fst).registry =
         st.registry) := by
  refine ⟨?_, ?_, ?_⟩
  · intro apps a status sf con tid now h
    refine ⟨?_, ?_, ?_⟩ <;>
      first
        | (unfold Registry.mark_attested; rw [h])
        | (unfold Registry.mark_health; rw [h])
        | (unfold Registry.mark_connection; rw [h])
  · intro st s a now nowStr happ hnone
    unfold handleDisconnect
    rw [happ]
    dsimp only
    have hmc : Registry.mark_connection st.registry a false s.tunnel_id =
        .error "KeyError" := by
      unfold Registry.mark_connection
      rw [hnone]
    rw [hmc, exceptBind_err]
  · intro st s repo tag an ai nw rg nonce ts
    unfold handleRegister
    dsimp only
    split
    · rfl
    · split
      · rfl
      · split
        · rfl
        · split <;> rfl

theorem mark_requires_record_witness :
    (Registry.mark_attested [] "demo" false "valid" 10 = .error "KeyError" ∧
     Registry.mark_health [] "demo" "pass" 10 = .error "KeyError" ∧
     Registry.mark_connection [] "demo" true none = .error "KeyError") ∧
    handleDisconnect stInit sessConn 10 "T10" = .error "KeyError" ∧
    ((handleRegister stInit {} (some "r") (some "t") (some "demo") (some "g")
        (some "forge-1") none "n1" "abcd1234").fst).registry = stInit.registry :=
  ⟨mark_requires_record.1 [] "demo" "valid" false true none 10 rfl,
   mark_requires_record.2.1 stInit sessConn "demo" 10 "T10" rfl rfl,
   mark_requires_record.2.2 stInit {} (some "r") (some "t") (some "demo") (some "g")
     (some "forge-1") none "n1" "abcd1234"⟩

theorem sum_setStr (l : List (String × Int)) (k : String) (v w : Int)
    (h : lookupStr l k = some v) :
    ((setStr l k w).map Prod.snd).sum = ((l.map Prod.snd).sum - v) + w := by
  induction l with
  | nil => simp [lookupStr] at h
  | cons p rest ih =>
      obtain ⟨pk, pv⟩ := p
      cases hk : (pk == k) with
      | true =>
          simp only [lookupStr, hk, if_true, Option.some.injEq] at h
          subst h
          simp [setStr, hk]
          ring
      | false =>
          simp only [lookupStr, hk, Bool.false_eq_true, if_false] at h
          simp only [setStr, hk, Bool.false_eq_true, if_false, List.map_cons,
            List.sum_cons]
          rw [ih h]
          ring

theorem ensure_account_sums (s : Store) (a : String) :
    (s.ensure_account a).sumBalances = s.sumBalances ∧
    (s.ensure_account a).ledger = s.ledger ∧
    (lookupStr (s.ensure_account a).accounts a).isSome := by
  unfold Store.ensure_account
  cases hl : lookupStr s.accounts a with
  | some v => exact ⟨rfl, rfl, by simp [hl]⟩
  | none =>
      refine ⟨?_, rfl, ?_⟩
      · simp [Store.sumBalances]
      · simp [lookupStr_append_right s.accounts a 0 hl]

theorem ensure_account_fields (s : Store) (a : String) :
    (s.ensure_account a).ledger = s.ledger ∧ (s.ensure_account a).nodes = s.nodes ∧
    (s.ensure_account a).locks = s.locks ∧ (s.ensure_account a).usage = s.usage ∧
    (s.ensure_account a).events = s.events ∧ (s.ensure_account a).abuse = s.abuse := by
  unfold Store.ensure_account
  split <;> exact ⟨rfl, rfl, rfl, rfl, rfl, rfl⟩

theorem apply_delta_effects (s : Store) (a : String) (d : Int) (s' : Store)
    (h : s.apply_balance_delta a d = .ok s') :
    s'.sumBalances = s.sumBalances + d ∧ s'.ledger = s.ledger ∧
    s'.nodes = s.nodes ∧ s'.locks = s.locks ∧ s'.usage = s.usage ∧
    s'.events = s.events ∧ s'.abuse = s.abuse := by
  unfold Store.apply_balance_delta at h
  obtain ⟨hsum, hledg, hsome⟩ := ensure_account_sums s a
  rcases Option.isSome_iff_exists.mp hsome with ⟨v, hv⟩
  dsimp only at h
  split at h
  · simp at h
  · simp only [Except.ok.injEq] at h
    subst h
    refine ⟨?_, ?_, ?_, ?_, ?_, ?_, ?_⟩
    · show ((setStr (s.ensure_account a).accounts a _).map Prod.snd).sum = _
      rw [sum_setStr _ a v _ hv]
      have : (lookupStr (s.ensure_account a).accounts a).getD 0 = v := by
        rw [hv]; rfl
      rw [this]
      show (s.ensure_account a).sumBalances - v + (v + d) = s.sumBalances + d
      rw [hsum]
      ring
    · exact (ensure_account_fields s a).1
    · exact (ensure_account_fields s a).2.1
    · exact (ensure_account_fields s a).2.2.1
    · exact (ensure_account_fields s a).2.2.2.1
    · exact (ensure_account_fields s a).2.2.2.2.1
    · exact (ensure_account_fields s a).2.2.2.2.2

theorem balanced_of (s s' : Store) (hb : s.balanced) (d : Int)
    (hB : s'.sumBalances = s.sumBalances + d)
    (hD : s'.sumDeltas = s.sumDeltas + d) : s'.balanced := by
  unfold Store.balanced at *
  omega

theorem insert_entry_sumDeltas (s : Store) (a : String) (d : Int)
    (reason : String) (rt ri : Option String) :
    (s.insert_ledger_entry a d reason rt ri).sumDeltas = s.sumDeltas + d := by
  unfold Store.insert_ledger_entry Store.sumDeltas
  simp

theorem ensure_account_balanced (s : Store) (a : String) (hb : s.balanced) :
    (s.ensure_account a).balanced :=
  balanced_of s _ hb 0 (by rw [(ensure_account_sums s a).1]; ring)
    (by
      show ((s.ensure_account a).ledger.map LedgerEntryRow.delta_cents).sum = _
      rw [(ensure_account_sums s a).2.1]
      show s.sumDeltas = s.sumDeltas + 0
      ring)

theorem ensure_node_balanced (s : Store) (n : String) (hb : s.balanced) :
    (s.ensure_node n).balanced := by
  unfold Store.ensure_node
  split
  · exact hb
  · exact ensure_account_balanced _ n hb

theorem delta_entry_balanced (s s₂ : Store) (a : String) (d : Int) (reason : String)
    (rt ri : Option String) (hb : s.balanced)
    (h : s.apply_balance_delta a d = .ok s₂) :
    (s₂.insert_ledger_entry a d reason rt ri).balanced := by
  obtain ⟨hB, hL, _⟩ := apply_delta_effects s a d s₂ h
  refine balanced_of s _ hb d ?_ ?_
  · show s₂.sumBalances = _
    rw [hB]
  · rw [insert_entry_sumDeltas]
    have hDeq : s₂.sumDeltas = s.sumDeltas := by
      unfold Store.sumDeltas
      rw [hL]
    rw [hDeq]

theorem purchase_credits_balanced (s : Store) (a : String) (c : Int) (s' : Store)
    (hb : s.balanced) (h : s.purchase_credits a c = .ok s') : s'.balanced := by
  unfold Store.purchase_credits at h
  split at h
  · simp at h
  · dsimp only at h
    cases had : (s.ensure_account a).apply_balance_delta a c with
    | error e => rw [had, exceptBind_err] at h; simp at h
    | ok s₂ =>
        rw [had, exceptBind_ok] at h
        simp only [Except.ok.injEq] at h
        subst h
        exact delta_entry_balanced _ s₂ a c "purchase" (some "purchase") none
          (ensure_account_balanced s a hb) had

theorem transfer_credits_balanced (s : Store) (f t : String) (c : Int) (tid : String)
    (s' : Store) (hb : s.balanced) (h : s.transfer_credits f t c tid = .ok s') :
    s'.balanced := by
  unfold Store.transfer_credits at h
  split at h
  · simp at h
  · dsimp only at h
    cases h1 : s.apply_balance_delta f (-c) with
    | error e => rw [h1, exceptBind_err] at h; simp at h
    | ok s₂ =>
        rw [h1, exceptBind_ok] at h
        have hb2 := delta_entry_balanced s s₂ f (-c) "transfer_out" (some "transfer")
          (some tid) hb h1
        cases h2 : (s₂.insert_ledger_entry f (-c) "transfer_out" (some "transfer")
            (some tid)).apply_balance_delta t c with
        | error e => rw [h2, exceptBind_err] at h; simp at h
        | ok s₃ =>
            rw [h2, exceptBind_ok] at h
            simp only [Except.ok.injEq] at h
            subst h
            exact delta_entry_balanced _ s₃ t c "transfer_in" (some "transfer")
              (some tid) hb2 h2

theorem lock_credits_balanced (s : Store) (a uid : String) (c : Int) (ps pe lid : String)
    (s' : Store) (hb : s.balanced) (h : s.lock_credits a uid c ps pe lid = .ok s') :
    s'.balanced := by
  unfold Store.lock_credits at h
  dsimp only at h
  cases h1 : s.apply_balance_delta a (-c) with
  | error e => rw [h1, exceptBind_err] at h; simp at h
  | ok s₂ =>
      rw [h1, exceptBind_ok] at h
      simp only [Except.ok.injEq] at h
      subst h
      exact delta_entry_balanced s s₂ a (-c) "lock" (some "usage") (some uid) hb h1

theorem release_lock_balanced (s : Store) (lid a : String) (c : Int) (uid : String)
    (s' : Store) (hb : s.balanced) (h : s.release_lock lid a c uid = .ok s') :
    s'.balanced := by
  unfold Store.release_lock at h
  dsimp only at h
  cases h1 : s.apply_balance_delta a c with
  | error e => rw [h1, exceptBind_err] at h; simp at h
  | ok s₂ =>
      rw [h1, exceptBind_ok] at h
      simp only [Except.ok.injEq] at h
      subst h
      exact delta_entry_balanced s s₂ a c "unlock" (some "usage") (some uid) hb h1

theorem settle_lock_balanced (s : Store) (lid p : String) (c : Int) (uid : String)
    (s' : Store) (hb : s.balanced) (h : s.settle_lock lid p c uid = .ok s') :
    s'.balanced := by
  unfold Store.settle_lock at h
  dsimp only at h
  cases h1 : s.apply_balance_delta p c with
  | error e => rw [h1, exceptBind_err] at h; simp at h
  | ok s₂ =>
      rw [h1, exceptBind_ok] at h
      simp only [Except.ok.injEq] at h
      subst h
      exact delta_entry_balanced s s₂ p c "settlement" (some "usage") (some uid) hb h1

theorem report_usage_balanced (s : Store) (a n : String) (hrs : ℚ)
    (ps pe uid lid : String) (s' : Store) (hb : s.balanced)
    (h : s.report_usage a n hrs ps pe uid lid = .ok s') : s'.balanced := by
  unfold Store.report_usage at h
  split at h
  · simp at h
  · split at h
    · simp at h
    · dsimp only at h
      split at h
      · simp at h
      · rename_i price heqp hamt
        cases h1 : (s.ensure_account a).lock_credits a uid
            (roundHalfUp (hrs * (price : ℚ))) ps pe lid with
        | error e => rw [h1, exceptBind_err] at h; simp at h
        | ok s₂ =>
            rw [h1, exceptBind_ok] at h
            simp only [Except.ok.injEq] at h
            subst h
            exact lock_credits_balanced _ a uid _ ps pe lid s₂
              (ensure_account_balanced s a hb) h1

theorem settle_step_balanced (elig : Bool) (n : String) (s : Store) (u : UsageRow)
    (s' : Store) (hb : s.balanced) (h : Store.settle_step elig n s u = .ok s') :
    s'.balanced := by
  unfold Store.settle_step at h
  split at h
  · cases h1 : s.settle_lock u.lock_id n u.amount_cents u.usage_id with
    | error e => rw [h1, exceptBind_err] at h; simp at h
    | ok s₂ =>
        rw [h1, exceptBind_ok] at h
        simp only [Except.ok.injEq] at h
        subst h
        exact settle_lock_balanced s u.lock_id n u.amount_cents u.usage_id s₂ hb h1
  · cases h1 : s.release_lock u.lock_id u.account_id u.amount_cents u.usage_id with
    | error e => rw [h1, exceptBind_err] at h; simp at h
    | ok s₂ =>
        rw [h1, exceptBind_ok] at h
        simp only [Except.ok.injEq] at h
        subst h
        exact release_lock_balanced s u.lock_id u.account_id u.amount_cents
          u.usage_id s₂ hb h1

theorem foldlM_balanced (f : Store → UsageRow → Except LedgerError Store)
    (hf : ∀ s u s', s.balanced → f s u = .ok s' → s'.balanced) :
    ∀ (l : List UsageRow) (s s' : Store), s.balanced →
      List.foldlM f s l = .ok s' → s'.balanced := by
  intro l
  induction l with
  | nil =>
      intro s s' hb h
      simp only [List.foldlM_nil] at h
      cases h
      exact hb
  | cons u t ih =>
      intro s s' hb h
      rw [List.foldlM_cons] at h
      cases h1 : f s u with
      | error e => rw [h1, exceptBind_err] at h; simp at h
      | ok s₁ =>
          rw [h1, exceptBind_ok] at h
          exact ih s₁ s' (hf s u s₁ hb h1) h

theorem settle_period_balanced (s : Store) (n ps pe : String)
    (out : Store × NodeEligibility × Nat × Nat) (hb : s.balanced)
    (h : s.settle_period n ps pe = .ok out) : out.fst.balanced := by
  unfold Store.settle_period at h
  dsimp only at h
  cases h1 : List.foldlM
      (Store.settle_step (s.eligible_for_settlement n ps pe).eligible n) s
      (settleMatches s n ps pe) with
  | error e => rw [h1, exceptBind_err] at h; simp at h
  | ok s₁ =>
      rw [h1, exceptBind_ok] at h
      simp only [Except.ok.injEq] at h
      subst h
      exact foldlM_balanced _ (settle_step_balanced _ n) _ s s₁ hb h1

theorem register_node_balanced (s : Store) (n : String) (p : Option Int)
    (t : Option String) (st : Option Int) (au rt : Bool) (fh : String)
    (s' : Store) (hb : s.balanced) (h : s.register_node n p t st au rt fh = .ok s') :
    s'.balanced := by
  unfold Store.register_node at h
  split at h
  · split at h
    · simp at h
    · simp only [Except.ok.injEq] at h
      subst h
      exact hb
  · dsimp only at h
    simp only [Except.ok.injEq] at h
    subst h
    exact ensure_account_balanced _ n hb

theorem nodes_update_balanced (s : Store) (f : Store → Store)
    (hacc : ∀ x : Store, (f x).accounts = x.accounts)
    (hled : ∀ x : Store, (f x).ledger = x.ledger)
    (hb : s.balanced) : (f s).balanced := by
  unfold Store.balanced Store.sumBalances Store.sumDeltas at *
  rw [hacc, hled]
  exact hb

theorem authorize_abuse_balanced (s : Store) (rid ab act : String) (s' : Store)
    (hb : s.balanced) (h : s.authorize_abuse_report rid ab act = .ok s') :
    s'.balanced := by
  unfold Store.authorize_abuse_report at h
  split at h
  · simp at h
  · dsimp only at h
    cases hf : List.find? (fun r => r.report_id == rid) s.abuse with
    | none => rw [hf] at h; simp at h
    | some r =>
        rw [hf] at h
        simp only [Except.ok.injEq] at h
        subst h
        exact hb

/-- C2: starting from the empty store, after any sequence of ledger API
calls the sum of `delta_cents` over all ledger entries equals the sum of
`balance_cents` over all accounts — every operation either leaves both
sums unchanged or changes a balance and appends exactly one ledger entry
with the same delta, and a failing operation rolls back entirely. -/
theorem ledger_double_entry_invariant (ops : List LOp) :
    (Store.runOps Store.empty ops).balanced := by
  have step : ∀ (s : Store) (op : LOp), s.balanced → (s.applyOp op).balanced := by
    intro s op hb
    cases op with
    | ensureNode n => exact ensure_node_balanced s n hb
    | registerNode n p t st au rt fh =>
        unfold Store.applyOp
        dsimp only
        cases h : s.register_node n p t st au rt fh with
        | ok s' => exact register_node_balanced s n p t st au rt fh s' hb h
        | error e => exact hb
    | updatePricing n p => exact ensure_node_balanced s n hb
    | updateStake n t st => exact ensure_node_balanced s n hb
    | markAttestation n st => exact ensure_node_balanced s n hb
    | markHealth n st => exact ensure_node_balanced s n hb
    | recordEvent n e at_ d => exact ensure_node_balanced s n hb
    | purchase a c =>
        unfold Store.applyOp
        dsimp only
        cases h : s.purchase_credits a c with
        | ok s' => exact purchase_credits_balanced s a c s' hb h
        | error e => exact hb
    | transfer f t c tid =>
        unfold Store.applyOp
        dsimp only
        cases h : s.transfer_credits f t c tid with
        | ok s' => exact transfer_credits_balanced s f t c tid s' hb h
        | error e => exact hb
    | lock a uid c ps pe lid =>
        unfold Store.applyOp
        dsimp only
        cases h : s.lock_credits a uid c ps pe lid with
        | ok s' => exact lock_credits_balanced s a uid c ps pe lid s' hb h
        | error e => exact hb
    | reportUsage a n hrs ps pe uid lid =>
        unfold Store.applyOp
        dsimp only
        cases h : s.report_usage a n hrs ps pe uid lid with
        | ok s' => exact report_usage_balanced s a n hrs ps pe uid lid s' hb h
        | error e => exact hb
    | settle n ps pe =>
        unfold Store.applyOp
        dsimp only
        cases h : s.settle_period n ps pe with
        | ok out =>
            obtain ⟨s', rest⟩ := out
            exact settle_period_balanced s n ps pe (s', rest) hb h
        | error e => exact hb
    | fileAbuse n ps pe rb r rid => exact ensure_node_balanced s n hb
    | authorizeAbuse rid ab act =>
        unfold Store.applyOp
        dsimp only
        cases h : s.authorize_abuse_report rid ab act with
        | ok s' => exact authorize_abuse_balanced s rid ab act s' hb h
        | error e => exact hb
  have run : ∀ (l : List LOp) (s : Store), s.balanced → (Store.runOps s l).balanced := by
    intro l
    induction l with
    | nil => intro s hb; exact hb
    | cons op t ih =>
        intro s hb
        exact ih (s.applyOp op) (step s op hb)
  exact run ops Store.empty rfl

theorem lookupStr_setStr_other {α : Type} (l : List (String × α)) (k k' : String)
    (v : α) (h : k ≠ k') : lookupStr (setStr l k v) k' = lookupStr l k' := by
  induction l with
  | nil => rfl
  | cons p rest ih =>
      obtain ⟨pk, pv⟩ := p
      cases hk : (pk == k) with
      | true =>
          have hpk : pk = k := by simpa using hk
          subst hpk
          simp only [setStr, hk, if_true, lookupStr]
          rw [if_neg (by simpa using h), if_neg (by simpa using h)]
      | false =>
          simp only [setStr, hk, Bool.false_eq_true, if_false, lookupStr]
          split
          · rfl
          · exact ih

theorem lookupStr_append_cases {α : Type} (l₁ l₂ : List (String × α)) (k : String) :
    lookupStr (l₁ ++ l₂) k =
      match lookupStr l₁ k with
      | some v => some v
      | none => lookupStr l₂ k := by
  induction l₁ with
  | nil => simp [lookupStr]
  | cons p rest ih =>
      obtain ⟨pk, pv⟩ := p
      cases hk : (pk == k) with
      | true => simp [lookupStr, hk]
      | false => simpa [lookupStr, hk] using ih

theorem ensure_account_get_balance (s : Store) (a b : String) :
    (s.ensure_account a).get_balance b = s.get_balance b := by
  unfold Store.ensure_account Store.get_balance
  cases hl : lookupStr s.accounts a with
  | some v => rfl
  | none =>
      dsimp only
      rw [lookupStr_append_cases]
      cases hb : lookupStr s.accounts b with
      | some v => rfl
      | none =>
          dsimp only [lookupStr]
          split <;> rfl

theorem apply_delta_get_balance (s : Store) (a : String) (d : Int) (s' : Store)
    (h : s.apply_balance_delta a d = .ok s') :
    ∀ b, s'.get_balance b = s.get_balance b + (if a == b then d else 0) := by
  intro b
  unfold Store.apply_balance_delta at h
  dsimp only at h
  split at h
  · simp at h
  · simp only [Except.ok.injEq] at h
    subst h
    obtain ⟨-, -, hsome⟩ := ensure_account_sums s a
    rcases Option.isSome_iff_exists.mp hsome with ⟨v, hv⟩
    have hens : ∀ c, (s.ensure_account a).get_balance c = s.get_balance c :=
      fun c => ensure_account_get_balance s a c
    cases hab : (a == b) with
    | true =>
        have hab' : a = b := by simpa using hab
        subst hab'
        show (lookupStr (setStr (s.ensure_account a).accounts a _) a).getD 0 = _
        rw [lookupStr_setStr_self _ a _ (by simp [hv])]
        have h1 := hens a
        unfold Store.get_balance at h1
        rw [hv] at h1
        simp only [Option.getD_some] at h1
        simp only [Option.getD_some, if_true]
        rw [hv]
        show v + d = s.get_balance a + d
        rw [h1]
        rfl
    | false =>
        have hab' : a ≠ b := by simpa using hab
        show (lookupStr (setStr (s.ensure_account a).accounts a _) b).getD 0 = _
        rw [lookupStr_setStr_other _ a b _ hab']
        have h1 := hens b
        unfold Store.get_balance at h1
        rw [h1]
        simp [hab, Store.get_balance]

theorem settle_lock_effects (s : Store) (lid p : String) (c : Int) (uid : String)
    (s' : Store) (h : s.settle_lock lid p c uid = .ok s') :
    s'.ledger = s.ledger ++ [⟨p, c, "settlement", some "usage", some uid⟩] ∧
    s'.usage = s.usage ∧
    s'.locks = setLockStatus s.locks lid "settled" ∧
    (∀ b, s'.get_balance b = s.get_balance b + (if p == b then c else 0)) ∧
    s'.nodes = s.nodes ∧ s'.events = s.events ∧ s'.abuse = s.abuse := by
  unfold Store.settle_lock at h
  cases h1 : s.apply_balance_delta p c with
  | error e => rw [h1, exceptBind_err] at h; simp at h
  | ok s₂ =>
      rw [h1, exceptBind_ok] at h
      simp only [Except.ok.injEq] at h
      subst h
      obtain ⟨-, hled, hnodes, hlocks, husage, hevents, habuse⟩ :=
        apply_delta_effects s p c s₂ h1
      have hbal := apply_delta_get_balance s p c s₂ h1
      refine ⟨?_, ?_, ?_, ?_, ?_, ?_, ?_⟩
      · show (s₂.insert_ledger_entry p c "settlement" (some "usage") (some uid)).ledger = _
        unfold Store.insert_ledger_entry
        rw [hled]
      · exact husage
      · show setLockStatus s₂.locks lid "settled" = _
        rw [hlocks]
      · exact hbal
      · exact hnodes
      · exact hevents
      · exact habuse

theorem release_lock_effects (s : Store) (lid a : String) (c : Int) (uid : String)
    (s' : Store) (h : s.release_lock lid a c uid = .ok s') :
    s'.ledger = s.ledger ++ [⟨a, c, "unlock", some "usage", some uid⟩] ∧
    s'.usage = s.usage ∧
    s'.locks = setLockStatus s.locks lid "released" ∧
    (∀ b, s'.get_balance b = s.get_balance b + (if a == b then c else 0)) ∧
    s'.nodes = s.nodes ∧ s'.events = s.events ∧ s'.abuse = s.abuse := by
  unfold Store.release_lock at h
  cases h1 : s.apply_balance_delta a c with
  | error e => rw [h1, exceptBind_err] at h; simp at h
  | ok s₂ =>
      rw [h1, exceptBind_ok] at h
      simp only [Except.ok.injEq] at h
      subst h
      obtain ⟨-, hled, hnodes, hlocks, husage, hevents, habuse⟩ :=
        apply_delta_effects s a c s₂ h1
      have hbal := apply_delta_get_balance s a c s₂ h1
      refine ⟨?_, ?_, ?_, ?_, ?_, ?_, ?_⟩
      · show (s₂.insert_ledger_entry a c "unlock" (some "usage") (some uid)).ledger = _
        unfold Store.insert_ledger_entry
        rw [hled]
      · exact husage
      · show setLockStatus s₂.locks lid "released" = _
        rw [hlocks]
      · exact hbal
      · exact hnodes
      · exact hevents
      · exact habuse

theorem settle_step_effects (elig : Bool) (node_id : String) (s : Store) (u : UsageRow)
    (s' : Store) (h : Store.settle_step elig node_id s u = .ok s') :
    s'.ledger = s.ledger ++ [settleEntry elig node_id u] ∧
    s'.usage = setUsageStatus s.usage u.usage_id (settleStatusStr elig) ∧
    s'.locks = setLockStatus s.locks u.lock_id (lockStatusStr elig) ∧
    (∀ b, s'.get_balance b = s.get_balance b +
      (if settleBeneficiary elig node_id u == b then u.amount_cents else 0)) ∧
    s'.nodes = s.nodes ∧ s'.events = s.events ∧ s'.abuse = s.abuse := by
  unfold Store.settle_step at h
  cases helig : elig with
  | true =>
      subst helig
      rw [if_pos rfl] at h
      cases h1 : s.settle_lock u.lock_id node_id u.amount_cents u.usage_id with
      | error e => rw [h1, exceptBind_err] at h; simp at h
      | ok s₂ =>
          rw [h1, exceptBind_ok] at h
          simp only [Except.ok.injEq] at h
          subst h
          obtain ⟨hled, husage, hlocks, hbal, hnodes, hevents, habuse⟩ :=
            settle_lock_effects s u.lock_id node_id u.amount_cents u.usage_id s₂ h1
          refine ⟨hled, ?_, hlocks, hbal, hnodes, hevents, habuse⟩
          show setUsageStatus s₂.usage u.usage_id "settled" = _
          rw [husage]
          rfl
  | false =>
      subst helig
      rw [if_neg (by simp)] at h
      cases h1 : s.release_lock u.lock_id u.account_id u.amount_cents u.usage_id with
      | error e => rw [h1, exceptBind_err] at h; simp at h
      | ok s₂ =>
          rw [h1, exceptBind_ok] at h
          simp only [Except.ok.injEq] at h
          subst h
          obtain ⟨hled, husage, hlocks, hbal, hnodes, hevents, habuse⟩ :=
            release_lock_effects s u.lock_id u.account_id u.amount_cents u.usage_id s₂ h1
          refine ⟨hled, ?_, hlocks, hbal, hnodes, hevents, habuse⟩
          show setUsageStatus s₂.usage u.usage_id "failed" = _
          rw [husage]
          rfl

theorem updUsage_comp (elig : Bool) (uid : String) (ids : List String) (x : UsageRow) :
    updUsage elig ids
      (if x.usage_id == uid then { x with status := settleStatusStr elig } else x) =
    updUsage elig (uid :: ids) x := by
  unfold updUsage
  by_cases h1 : x.usage_id = uid <;> by_cases h2 : x.usage_id ∈ ids <;>
    simp [h1, h2, List.contains_cons]

theorem updLock_comp (elig : Bool) (lid : String) (ids : List String)
    (x : CreditLockRow) :
    updLock elig ids
      (if x.lock_id == lid then { x with status := lockStatusStr elig } else x) =
    updLock elig (lid :: ids) x := by
  unfold updLock
  by_cases h1 : x.lock_id = lid <;> by_cases h2 : x.lock_id ∈ ids <;>
    simp [h1, h2, List.contains_cons]

theorem amountsFor_cons (elig : Bool) (n : String) (u : UsageRow) (t : List UsageRow)
    (a : String) :
    amountsFor elig n (u :: t) a =
      (if settleBeneficiary elig n u == a then u.amount_cents else 0) +
        amountsFor elig n t a := by
  unfold amountsFor
  cases hb : (settleBeneficiary elig n u == a) with
  | true => simp [List.filter_cons, hb]
  | false => simp [List.filter_cons, hb]

theorem settleRun_spec (elig : Bool) (node_id : String) :
    ∀ (ms : List UsageRow) (s s' : Store),
      List.foldlM (Store.settle_step elig node_id) s ms = .ok s' →
      s'.ledger = s.ledger ++ ms.map (settleEntry elig node_id) ∧
      s'.usage = s.usage.map (updUsage elig (ms.map UsageRow.usage_id)) ∧
      s'.locks = s.locks.map (updLock elig (ms.map UsageRow.lock_id)) ∧
      (∀ a, s'.get_balance a = s.get_balance a + amountsFor elig node_id ms a) ∧
      s'.nodes = s.nodes ∧ s'.events = s.events ∧ s'.abuse = s.abuse := by
  intro ms
  induction ms with
  | nil =>
      intro s s' h
      simp only [List.foldlM_nil] at h
      cases h
      refine ⟨by simp, ?_, ?_, ?_, rfl, rfl, rfl⟩
      · simp only [List.map_nil]
        have h0 : ∀ l : List UsageRow, l.map (updUsage elig []) = l := by
          intro l
          induction l with
          | nil => rfl
          | cons y t ih =>
              rw [List.map_cons, ih]
              rfl
        rw [h0]
      · simp only [List.map_nil]
        have h0 : ∀ l : List CreditLockRow, l.map (updLock elig []) = l := by
          intro l
          induction l with
          | nil => rfl
          | cons y t ih =>
              rw [List.map_cons, ih]
              rfl
        rw [h0]
      · intro a
        simp [amountsFor]
  | cons u t ih =>
      intro s s' h
      rw [List.foldlM_cons] at h
      cases h1 : Store.settle_step elig node_id s u with
      | error e => rw [h1, exceptBind_err] at h; simp at h
      | ok s₁ =>
          rw [h1, exceptBind_ok] at h
          obtain ⟨l1, u1, k1, b1, n1, e1, a1⟩ := settle_step_effects elig node_id s u s₁ h1
          obtain ⟨l2, u2, k2, b2, n2, e2, a2⟩ := ih s₁ s' h
          refine ⟨?_, ?_, ?_, ?_, ?_, ?_, ?_⟩
          · rw [l2, l1]
            simp
          · rw [u2, u1]
            unfold setUsageStatus
            rw [List.map_map]
            exact List.map_congr_left (fun x _ => updUsage_comp elig u.usage_id
              (t.map UsageRow.usage_id) x)
          · rw [k2, k1]
            unfold setLockStatus
            rw [List.map_map]
            exact List.map_congr_left (fun x _ => updLock_comp elig u.lock_id
              (t.map UsageRow.lock_id) x)
          · intro a
            rw [b2 a, b1 a, amountsFor_cons]
            ring
          · rw [n2, n1]
          · rw [e2, e1]
          · rw [a2, a1]

theorem amountsFor_eligible (node : String) (ms : List UsageRow) :
    amountsFor true node ms node = (ms.map UsageRow.amount_cents).sum := by
  unfold amountsFor settleBeneficiary
  simp

theorem amountsFor_not_payer (node : String) (ms : List UsageRow)
    (h : node ∉ ms.map UsageRow.account_id) : amountsFor false node ms node = 0 := by
  unfold amountsFor settleBeneficiary
  have hnil : ms.filter (fun u => (if false then node else u.account_id) == node) = [] := by
    rw [List.filter_eq_nil_iff]
    intro u hu
    simp only [if_false, beq_iff_eq]
    intro heq
    exact h (heq ▸ List.mem_map_of_mem UsageRow.account_id hu)
  rw [hnil]
  rfl

/-- C3: for every `settle_period(node_id, period_start, period_end)` call
that completes, the reported eligibility is `_eligible_for_settlement`'s
verdict, and over the snapshot of `locked` usage rows for that exact
window: when eligible, every such row ends with status `settled`, one
`settlement` ledger entry per row credits the provider, and the provider
account gains exactly the sum of the locked `amount_cents`; when
ineligible, every such row ends `failed`, each lock is released back to
its paying account (`unlock` entries — nothing else is appended, so the
provider receives no settlement credit, and its balance is unchanged
whenever it is not itself one of the paying accounts). -/
theorem settle_period_spec (s : Store) (node_id ps pe : String)
    (s' : Store) (elig : NodeEligibility) (ns nf : Nat)
    (h : s.settle_period node_id ps pe = .ok (s', elig, ns, nf)) :
    elig = s.eligible_for_settlement node_id ps pe ∧
    s'.ledger = s.ledger ++
      (settleMatches s node_id ps pe).map (settleEntry elig.eligible node_id) ∧
    s'.usage = s.usage.map (updUsage elig.eligible
      ((settleMatches s node_id ps pe).map UsageRow.usage_id)) ∧
    s'.locks = s.locks.map (updLock elig.eligible
      ((settleMatches s node_id ps pe).map UsageRow.lock_id)) ∧
    (∀ a, s'.get_balance a = s.get_balance a +
       amountsFor elig.eligible node_id (settleMatches s node_id ps pe) a) ∧
    (∀ u ∈ settleMatches s node_id ps pe,
       { u with status := settleStatusStr elig.eligible } ∈ s'.usage) ∧
    (elig.eligible = true →
       s'.get_balance node_id = s.get_balance node_id +
         ((settleMatches s node_id ps pe).map UsageRow.amount_cents).sum) ∧
    (elig.eligible = false →
       (node_id ∉ (settleMatches s node_id ps pe).map UsageRow.account_id →
         s'.get_balance node_id = s.get_balance node_id) ∧
       s'.ledger.drop s.ledger.length =
         (settleMatches s node_id ps pe).map (settleEntry false node_id) ∧
       (∀ e ∈ s'.ledger.drop s.ledger.length, e.reason = "unlock")) := by
  unfold Store.settle_period at h
  dsimp only at h
  cases hrun : List.foldlM
      (Store.settle_step (s.eligible_for_settlement node_id ps pe).eligible node_id) s
      (settleMatches s node_id ps pe) with
  | error e => rw [hrun, exceptBind_err] at h; simp at h
  | ok s₁ =>
      rw [hrun, exceptBind_ok] at h
      simp only [Except.ok.injEq, Prod.mk.injEq] at h
      obtain ⟨hs, helig, -⟩ := h
      subst hs
      subst helig
      obtain ⟨hled, husg, hlk, hbal, -, -, -⟩ :=
        settleRun_spec (s.eligible_for_settlement node_id ps pe).eligible node_id
          (settleMatches s node_id ps pe) s s₁ hrun
      refine ⟨rfl, hled, husg, hlk, hbal, ?_, ?_, ?_⟩
      · intro u hu
        have humem : u ∈ s.usage := List.mem_of_mem_filter hu
        have hidmem : u.usage_id ∈ (settleMatches s node_id ps pe).map UsageRow.usage_id :=
          List.mem_map_of_mem UsageRow.usage_id hu
        have himg : updUsage (s.eligible_for_settlement node_id ps pe).eligible
            ((settleMatches s node_id ps pe).map UsageRow.usage_id) u =
            { u with status := settleStatusStr (s.eligible_for_settlement node_id ps pe).eligible } := by
          unfold updUsage
          rw [if_pos (by simpa using hidmem)]
        rw [husg]
        exact himg ▸ List.mem_map_of_mem _ humem
      · intro he
        rw [hbal node_id, he, amountsFor_eligible]
      · intro he
        refine ⟨?_, ?_, ?_⟩
        · intro hnp
          rw [hbal node_id, he, amountsFor_not_payer node_id _ hnp, add_zero]
        · rw [hled, he, List.drop_left]
        · intro e he'
          rw [hled, List.drop_left] at he'
          obtain ⟨u, -, hu⟩ := List.mem_map.mp he'
          rw [← hu, he]
          rfl

/-- Witness: `settle_period` on `settleW` succeeds with verdict eligible,
and `settle_period_spec` applied there yields the provider credit
equation. -/
theorem settle_period_spec_witness :
    settleW.settle_period "w" "P0" "P1" = .ok (settleWOut, ⟨true, []⟩, 1, 0) ∧
    settleWOut.get_balance "w" = settleW.get_balance "w" +
      ((settleMatches settleW "w" "P0" "P1").map UsageRow.amount_cents).sum :=
  have h : settleW.settle_period "w" "P0" "P1" = .ok (settleWOut, ⟨true, []⟩, 1, 0) := rfl
  ⟨h, (settle_period_spec settleW "w" "P0" "P1" settleWOut ⟨true, []⟩ 1 0 h).2.2.2.2.2.2.1 rfl⟩
